import Mathlib

/-!
# Verification of the Vendor Risk Analysis Pipeline

Shallow embedding of the core pipeline components of the vendor-risk
repository (risk scorer, variable partitioner, news aggregator/merger,
fallback dependency generator, vendor job store) together with proofs of
the specification claims about them.

JavaScript numbers are modelled as rationals (`ℚ`) where the code only
manipulates finite values, and as the four-way type `JSNum`
(finite / NaN / +Infinity / -Infinity) at the partitioning boundary where
the code explicitly tests `isFinite`.  `Math.round` is
round-half-toward-positive-infinity, i.e. `⌊x + 1/2⌋`.
-/

namespace VendorRisk

/-- JavaScript `Math.round` on a finite number: round half toward +∞
(defined via the executable `Rat.floor`). -/
def jsRound (q : ℚ) : ℤ := (q + 1/2).floor

/-- `jsRound` as a `ℚ → ℚ` map (the JS value stays a number). -/
def jsRoundQ (q : ℚ) : ℚ := (jsRound q : ℚ)

/-- `clamp` from `risk-scorer.ts` / `vendor-analyzer.ts`:
`Math.max(0, Math.min(100, Math.round(value)))`. -/
def clamp (value : ℚ) : ℚ := max 0 (min 100 (jsRoundQ value))

/-- A rational that is (the image of) an integer. -/
def IsIntQ (q : ℚ) : Prop := ∃ n : ℤ, q = (n : ℚ)

-- ---------------------------------------------------------------------------
-- Risk scorer data model (`risk-scorer.ts`, `types/research.ts`)
-- ---------------------------------------------------------------------------

/-- The four risk partitions (`VariableCategory` in `types/research.ts`). -/
inductive VariableCategory
  | financial
  | operational
  | geographical
  | ethical
  deriving DecidableEq, Repr

/-- Severity enum of an LLM risk signal (`RiskSignalSchema.severity`). -/
inductive Severity
  | low
  | medium
  | high
  | critical
  deriving DecidableEq, Repr

/-- One LLM risk signal (`RiskSignalSchema`); only the fields the pipeline
reads are carried. -/
structure RiskSignal where
  category : String
  signal : String
  severity : Severity
  reasoning : String
  deriving DecidableEq, Repr

/-- Output of the LLM evaluation pass (`EvaluatedData`), restricted to the
fields read by the partitioner and the scorer. -/
structure EvaluatedData where
  riskSignals : List RiskSignal
  supplyChainInsights : List String
  deriving DecidableEq, Repr

/-- A partitioned variable (`PartitionedVariable`).  The partitioner only
emits finite values (proved below), so `value` is a rational. -/
structure PartitionedVariable where
  name : String
  value : ℚ
  category : VariableCategory
  industry : String
  deriving DecidableEq, Repr

/-- `PartitionedVariables`: the four per-category variable lists. -/
structure PartitionedVariables where
  industry : String
  financial : List PartitionedVariable
  operational : List PartitionedVariable
  geographical : List PartitionedVariable
  ethical : List PartitionedVariable
  deriving Repr

/-- Category list accessor (`partitioned[cat]` in `computeRiskScores`). -/
def PartitionedVariables.get (pv : PartitionedVariables) :
    VariableCategory → List PartitionedVariable
  | .financial => pv.financial
  | .operational => pv.operational
  | .geographical => pv.geographical
  | .ethical => pv.ethical

inductive RiskLevel
  | Low
  | Moderate
  | High
  | Critical
  deriving DecidableEq, Repr

inductive ResilienceRating
  | Poor
  | Moderate
  | Strong
  | Excellent
  deriving DecidableEq, Repr

structure CategoryRiskScore where
  category : VariableCategory
  label : String
  riskScore : ℚ
  resilienceScore : ℚ
  riskLevel : RiskLevel
  deriving DecidableEq, Repr

structure LabeledPercentage where
  label : String
  percentage : ℚ
  deriving DecidableEq, Repr

structure ResilienceFactor where
  label : String
  score : ℚ
  deriving DecidableEq, Repr

structure RiskScoreResult where
  overallRiskScore : ℚ
  overallRiskLevel : RiskLevel
  overallResilienceScore : ℚ
  resilienceRating : ResilienceRating
  categoryScores : List CategoryRiskScore
  riskDistribution : List LabeledPercentage
  resilienceFactors : List ResilienceFactor
  deriving Repr

-- ---------------------------------------------------------------------------
-- Benchmark rules (`FINANCIAL_BENCHMARKS` etc.)
-- ---------------------------------------------------------------------------

structure BenchmarkRule where
  variableName : String
  riskFn : ℚ → ℚ

def FINANCIAL_BENCHMARKS : List BenchmarkRule :=
  [ { variableName := "altman_z_score",
      riskFn := fun v => if v > 2.99 then 15 else if v > 1.81 then 50 else 85 },
    { variableName := "piotroski_score",
      riskFn := fun v => max 0 (min 100 ((9 - v) * 11)) },
    { variableName := "debt_to_equity",
      riskFn := fun v =>
        if v < 0.5 then 15 else if v < 1.0 then 30 else
        if v < 2.0 then 55 else if v < 3.0 then 75 else 90 },
    { variableName := "current_ratio",
      riskFn := fun v =>
        if v > 2.0 then 10 else if v > 1.5 then 25 else
        if v > 1.0 then 50 else 80 },
    { variableName := "quick_ratio",
      riskFn := fun v =>
        if v > 1.5 then 10 else if v > 1.0 then 30 else
        if v > 0.5 then 60 else 85 },
    { variableName := "annualized_volatility",
      riskFn := fun v =>
        if v < 0.2 then 15 else if v < 0.35 then 35 else
        if v < 0.5 then 60 else 85 },
    { variableName := "return_on_equity",
      riskFn := fun v =>
        if v > 0.2 then 10 else if v > 0.1 then 25 else
        if v > 0 then 45 else 80 },
    { variableName := "return_on_assets",
      riskFn := fun v =>
        if v > 0.1 then 10 else if v > 0.05 then 30 else
        if v > 0 then 50 else 80 },
    { variableName := "price_change_pct",
      riskFn := fun v =>
        if |v| < 2 then 15 else if |v| < 5 then 35 else
        if |v| < 10 then 60 else 80 } ]

def OPERATIONAL_BENCHMARKS : List BenchmarkRule :=
  [ { variableName := "supply_chain_risk_severity_score",
      riskFn := fun v => min 100 (v * 20) },
    { variableName := "supply_chain_risk_signal_count",
      riskFn := fun v => min 100 (v * 15) },
    { variableName := "global_supply_chain_pressure_index",
      riskFn := fun v =>
        if v < -0.5 then 15 else if v < 0.5 then 35 else
        if v < 1.5 then 60 else 85 },
    { variableName := "ism_supplier_deliveries_index",
      riskFn := fun v =>
        if v < 50 then 20 else if v < 55 then 40 else
        if v < 60 then 65 else 85 } ]

def GEOGRAPHICAL_BENCHMARKS : List BenchmarkRule :=
  [ { variableName := "geographic_concentration_ratio",
      riskFn := fun v =>
        if v < 0.3 then 15 else if v < 0.5 then 35 else
        if v < 0.7 then 60 else 85 },
    { variableName := "facility_state_count",
      riskFn := fun v =>
        if v > 10 then 15 else if v > 5 then 30 else
        if v > 2 then 50 else 75 } ]

def ETHICAL_BENCHMARKS : List BenchmarkRule :=
  [ { variableName := "environmental_violation_count",
      riskFn := fun v =>
        if v = 0 then 10 else if v < 3 then 35 else
        if v < 10 then 60 else 85 },
    { variableName := "environmental_total_penalties",
      riskFn := fun v =>
        if v = 0 then 10 else if v < 50000 then 30 else
        if v < 500000 then 55 else if v < 5000000 then 75 else 90 },
    { variableName := "regulatory_risk_severity_score",
      riskFn := fun v => min 100 (v * 18) },
    { variableName := "litigation_risk_severity_score",
      riskFn := fun v => min 100 (v * 18) },
    { variableName := "environmental_risk_severity_score",
      riskFn := fun v => min 100 (v * 18) },
    { variableName := "safety_risk_severity_score",
      riskFn := fun v => min 100 (v * 18) } ]

def BENCHMARKS_BY_CATEGORY : VariableCategory → List BenchmarkRule
  | .financial => FINANCIAL_BENCHMARKS
  | .operational => OPERATIONAL_BENCHMARKS
  | .geographical => GEOGRAPHICAL_BENCHMARKS
  | .ethical => ETHICAL_BENCHMARKS

-- ---------------------------------------------------------------------------
-- Evaluation-derived risk (`computeEvaluationRisk`)
-- ---------------------------------------------------------------------------

/-- `SEVERITY_WEIGHT` in `risk-scorer.ts` (`severity` is a closed enum, so
the `?? 30` default in the source is unreachable). -/
def SEVERITY_WEIGHT : Severity → ℚ
  | .low => 10
  | .medium => 30
  | .high => 60
  | .critical => 90

def computeEvaluationRisk (evaluated : Option EvaluatedData)
    (categoryFilter : List String) : ℚ :=
  match evaluated with
  | none => 50
  | some e =>
    let signals := e.riskSignals.filter fun s => categoryFilter.contains s.category
    if signals.length = 0 then 35
    else
      let total := signals.foldl (fun sum s => sum + SEVERITY_WEIGHT s.severity) 0
      min 100 (jsRoundQ (total / signals.length + signals.length * 3))

-- ---------------------------------------------------------------------------
-- Per-category score (`scoreCategory`)
-- ---------------------------------------------------------------------------

def scoreCategory (vbls : List PartitionedVariable)
    (benchmarks : List BenchmarkRule) (evaluationRisk : ℚ) : ℚ :=
  let scores := benchmarks.foldl
    (fun (acc : List ℚ) b =>
      match vbls.find? (fun v => v.name = b.variableName) with
      | some v => acc ++ [b.riskFn v.value]
      | none => acc) []
  if scores.length = 0 then evaluationRisk
  else jsRoundQ ((scores.foldl (· + ·) 0) / scores.length * (6/10)
                  + evaluationRisk * (4/10))

def CATEGORY_LABELS : VariableCategory → String
  | .financial => "Financial"
  | .operational => "Operational"
  | .geographical => "Geopolitical"
  | .ethical => "Regulatory & Ethical"

def CATEGORY_EVAL_FILTERS : VariableCategory → List String
  | .financial => ["financial", "macro"]
  | .operational => ["supply_chain"]
  | .geographical => ["supply_chain", "macro"]
  | .ethical => ["regulatory", "litigation", "environmental", "safety"]

def riskLevelFromScore (score : ℚ) : RiskLevel :=
  if score < 30 then .Low
  else if score < 55 then .Moderate
  else if score < 75 then .High
  else .Critical

def resilienceRatingFromScore (score : ℚ) : ResilienceRating :=
  if score < 30 then .Poor
  else if score < 55 then .Moderate
  else if score < 75 then .Strong
  else .Excellent

def CATEGORY_WEIGHT : VariableCategory → ℚ
  | .financial => 35/100
  | .operational => 25/100
  | .geographical => 20/100
  | .ethical => 20/100

def CATEGORY_LIST : List VariableCategory :=
  [.financial, .operational, .geographical, .ethical]

-- ---------------------------------------------------------------------------
-- `computeRiskScores`.  The `randomJitter(8)` draw made for each category is
-- passed in as the function `jitter`; the source draws
-- `(Math.random() - 0.5) * 8`, so the actual draws satisfy `|jitter c| ≤ 4`.
-- ---------------------------------------------------------------------------

/-- The closure mapped over the four categories inside `computeRiskScores`. -/
def categoryScoreFor (jitter : VariableCategory → ℚ)
    (partitioned : PartitionedVariables) (evaluated : Option EvaluatedData)
    (cat : VariableCategory) : CategoryRiskScore :=
  let evalRisk := computeEvaluationRisk evaluated (CATEGORY_EVAL_FILTERS cat)
  let riskScore := scoreCategory (partitioned.get cat)
    (BENCHMARKS_BY_CATEGORY cat) evalRisk
  let resilienceScore := max 0 (min 100 (100 - riskScore + jitter cat))
  { category := cat
    label := CATEGORY_LABELS cat
    riskScore := clamp riskScore
    resilienceScore := clamp resilienceScore
    riskLevel := riskLevelFromScore riskScore }

def computeRiskScores (jitter : VariableCategory → ℚ)
    (partitioned : PartitionedVariables)
    (evaluated : Option EvaluatedData) : RiskScoreResult :=
  let categoryScores : List CategoryRiskScore :=
    CATEGORY_LIST.map (categoryScoreFor jitter partitioned evaluated)
  let overallRiskScore := jsRoundQ (categoryScores.foldl
    (fun sum cs => sum + cs.riskScore * CATEGORY_WEIGHT cs.category) 0)
  let overallResilienceScore := jsRoundQ (categoryScores.foldl
    (fun sum cs => sum + cs.resilienceScore * CATEGORY_WEIGHT cs.category) 0)
  let totalRisk := categoryScores.foldl (fun s c => s + c.riskScore) 0
  let riskDistribution := categoryScores.map fun cs =>
    { label := cs.label
      percentage :=
        if totalRisk > 0 then jsRoundQ (cs.riskScore / totalRisk * 1000) / 10
        else 25 }
  let resilienceFactors : List ResilienceFactor :=
    [ { label := "Geographic Diversification"
        score := ((categoryScores.find? fun c => c.category = .geographical).map
          (·.resilienceScore)).getD 50 },
      { label := "Financial Stability"
        score := ((categoryScores.find? fun c => c.category = .financial).map
          (·.resilienceScore)).getD 50 },
      { label := "Operational Redundancy"
        score := ((categoryScores.find? fun c => c.category = .operational).map
          (·.resilienceScore)).getD 50 } ]
  { overallRiskScore := clamp overallRiskScore
    overallRiskLevel := riskLevelFromScore overallRiskScore
    overallResilienceScore := clamp overallResilienceScore
    resilienceRating := resilienceRatingFromScore overallResilienceScore
    categoryScores := categoryScores
    riskDistribution := riskDistribution
    resilienceFactors := resilienceFactors }

-- ---------------------------------------------------------------------------
-- JavaScript numbers at the partitioning boundary (`partitioner.ts`)
--
-- Source fields parsed from external JSON can be NaN or infinite (e.g.
-- `parseFloat` of a malformed string); the partitioner filters them with
-- `isFinite`.  `JSNum` models an arbitrary JS number.
-- ---------------------------------------------------------------------------

/-- A JavaScript number: a finite rational, NaN, or a signed infinity. -/
inductive JSNum
  | fin (q : ℚ)
  | nan
  | inf
  | ninf
  deriving DecidableEq, Repr

def JSNum.isFinite : JSNum → Bool
  | .fin _ => true
  | _ => false

def jsNeg : JSNum → JSNum
  | .fin q => .fin (-q)
  | .nan => .nan
  | .inf => .ninf
  | .ninf => .inf

def jsAdd : JSNum → JSNum → JSNum
  | .fin p, .fin q => .fin (p + q)
  | .nan, _ => .nan
  | _, .nan => .nan
  | .inf, .ninf => .nan
  | .ninf, .inf => .nan
  | .inf, _ => .inf
  | _, .inf => .inf
  | .ninf, _ => .ninf
  | _, .ninf => .ninf

def jsSub (a b : JSNum) : JSNum := jsAdd a (jsNeg b)

def jsMul : JSNum → JSNum → JSNum
  | .fin p, .fin q => .fin (p * q)
  | .nan, _ => .nan
  | _, .nan => .nan
  | .inf, .inf => .inf
  | .inf, .ninf => .ninf
  | .ninf, .inf => .ninf
  | .ninf, .ninf => .inf
  | .inf, .fin q => if q = 0 then .nan else if q > 0 then .inf else .ninf
  | .fin q, .inf => if q = 0 then .nan else if q > 0 then .inf else .ninf
  | .ninf, .fin q => if q = 0 then .nan else if q > 0 then .ninf else .inf
  | .fin q, .ninf => if q = 0 then .nan else if q > 0 then .ninf else .inf

def jsDiv : JSNum → JSNum → JSNum
  | .fin p, .fin q =>
      if q = 0 then (if p = 0 then .nan else if p > 0 then .inf else .ninf)
      else .fin (p / q)
  | .nan, _ => .nan
  | _, .nan => .nan
  | .fin _, .inf => .fin 0
  | .fin _, .ninf => .fin 0
  | .inf, .fin q => if q < 0 then .ninf else .inf
  | .ninf, .fin q => if q < 0 then .inf else .ninf
  | _, _ => .nan

-- ---------------------------------------------------------------------------
-- Aggregated data model (`types/research.ts`), restricted to the fields the
-- modelled pipeline stages read.
-- ---------------------------------------------------------------------------

structure CompanyIdentifier where
  ticker : String
  name : Option String
  deriving DecidableEq, Repr

structure CompanyProfile where
  symbol : String
  companyName : String
  sector : String
  country : String
  employees : Option JSNum
  deriving DecidableEq, Repr

structure StockQuote where
  price : JSNum
  change : JSNum
  changePercent : JSNum
  volume : JSNum
  marketCap : JSNum
  pe : Option JSNum
  deriving DecidableEq, Repr

structure HistoricalPrice where
  date : String
  close : JSNum
  deriving DecidableEq, Repr

structure FinancialHealth where
  altmanZScore : Option JSNum
  piotroskiScore : Option JSNum
  debtToEquity : Option JSNum
  currentRatio : Option JSNum
  quickRatio : Option JSNum
  returnOnEquity : Option JSNum
  returnOnAssets : Option JSNum
  deriving DecidableEq, Repr

structure IncomeStatement where
  date : String
  deriving DecidableEq, Repr

structure BalanceSheet where
  date : String
  deriving DecidableEq, Repr

structure CashFlowStatement where
  date : String
  deriving DecidableEq, Repr

structure SecFiling where
  form : String
  deriving DecidableEq, Repr

structure NewsArticle where
  title : String
  url : String
  deriving DecidableEq, Repr

structure MacroObservation where
  date : String
  value : Option JSNum
  deriving DecidableEq, Repr

structure MacroIndicator where
  seriesId : String
  observations : List MacroObservation
  deriving DecidableEq, Repr

structure EnvironmentalViolation where
  facilityName : String
  state : String
  penaltyAmount : Option JSNum
  deriving DecidableEq, Repr

structure OshaInspection where
  establishmentName : String
  deriving DecidableEq, Repr

structure WebResearchResult where
  query : String
  deriving DecidableEq, Repr

/-- `DataSourceResult<T>`: the uniform per-source wrapper. -/
structure DataSourceResult (α : Type) where
  source : String
  success : Bool
  data : Option α
  error : Option String
  fetchedAt : String
  deriving DecidableEq, Repr

def sourceSuccess {α : Type} (source : String) (data : α)
    (fetchedAt : String) : DataSourceResult α :=
  { source := source, success := true, data := some data, error := none
    fetchedAt := fetchedAt }

def sourceError {α : Type} (source : String) (error : String)
    (fetchedAt : String) : DataSourceResult α :=
  { source := source, success := false, data := none, error := some error
    fetchedAt := fetchedAt }

structure AggregatedCompanyData where
  company : CompanyIdentifier
  profile : DataSourceResult CompanyProfile
  stockQuote : DataSourceResult StockQuote
  historicalPrices : DataSourceResult (List HistoricalPrice)
  incomeStatements : DataSourceResult (List IncomeStatement)
  balanceSheets : DataSourceResult (List BalanceSheet)
  cashFlows : DataSourceResult (List CashFlowStatement)
  financialHealth : DataSourceResult FinancialHealth
  secFilings : DataSourceResult (List SecFiling)
  news : DataSourceResult (List NewsArticle)
  macroIndicators : DataSourceResult (List MacroIndicator)
  environmentalViolations : DataSourceResult (List EnvironmentalViolation)
  oshaInspections : DataSourceResult (List OshaInspection)
  webResearch : DataSourceResult (List WebResearchResult)
  deriving Repr

-- ---------------------------------------------------------------------------
-- Variable partitioner (`partitioner.ts`)
-- ---------------------------------------------------------------------------

/-- `SECTOR_ALIASES` from `partitioner.ts`. -/
def SECTOR_ALIASES : List (String × String) :=
  [ ("technology", "Technology"),
    ("information technology", "Technology"),
    ("tech", "Technology"),
    ("software", "Technology"),
    ("communication services", "Telecommunications"),
    ("telecommunications", "Telecommunications"),
    ("telecom", "Telecommunications"),
    ("healthcare", "Healthcare"),
    ("health care", "Healthcare"),
    ("pharmaceuticals", "Healthcare"),
    ("biotech", "Healthcare"),
    ("biotechnology", "Healthcare"),
    ("financial services", "Finance"),
    ("financials", "Finance"),
    ("finance", "Finance"),
    ("banking", "Finance"),
    ("insurance", "Finance"),
    ("energy", "Energy"),
    ("oil & gas", "Energy"),
    ("oil and gas", "Energy"),
    ("renewable energy", "Energy"),
    ("basic materials", "Natural Resources"),
    ("materials", "Natural Resources"),
    ("mining", "Natural Resources"),
    ("metals", "Natural Resources"),
    ("natural resources", "Natural Resources"),
    ("industrials", "Industrials"),
    ("industrial", "Industrials"),
    ("manufacturing", "Industrials"),
    ("construction", "Industrials"),
    ("aerospace", "Industrials"),
    ("consumer cyclical", "Consumer Discretionary"),
    ("consumer discretionary", "Consumer Discretionary"),
    ("retail", "Consumer Discretionary"),
    ("automotive", "Consumer Discretionary"),
    ("consumer defensive", "Consumer Staples"),
    ("consumer staples", "Consumer Staples"),
    ("food & beverage", "Consumer Staples"),
    ("utilities", "Utilities"),
    ("real estate", "Real Estate"),
    ("reit", "Real Estate"),
    ("transportation", "Transportation"),
    ("logistics", "Transportation"),
    ("airlines", "Transportation"),
    ("shipping", "Transportation"),
    ("agriculture", "Agriculture"),
    ("farming", "Agriculture"),
    ("defense", "Defense"),
    ("military", "Defense"),
    ("aerospace & defense", "Defense") ]

/-- Modelled from the spec: the `INDUSTRY_SECTORS` constant lives in the part
of `types/research.ts` not included under `src/`; `PIPELINE.md` lists its
members. -/
def INDUSTRY_SECTORS : List String :=
  [ "Technology", "Healthcare", "Finance", "Energy", "Natural Resources",
    "Industrials", "Consumer Discretionary", "Consumer Staples", "Utilities",
    "Real Estate", "Telecommunications", "Transportation", "Agriculture",
    "Defense", "Unknown" ]

/-- `haystack.includes(needle)` on JS strings. -/
def strContains (haystack needle : String) : Bool :=
  (List.range (haystack.length + 1)).any fun i =>
    needle.data.isPrefixOf (haystack.data.drop i)

/-- `resolveIndustry` from `partitioner.ts`. -/
def resolveIndustry (sectorRaw : Option String) : String :=
  match sectorRaw with
  | none => "Unknown"
  | some raw =>
    if raw = "Unknown" ∨ raw = "" then "Unknown"
    else
      let normalized := raw.toLower.trim
      match SECTOR_ALIASES.lookup normalized with
      | some sector => sector
      | none =>
        match SECTOR_ALIASES.find? fun a =>
            strContains normalized a.1 ∨ strContains a.1 normalized with
        | some (_, sector) => sector
        | none =>
          match INDUSTRY_SECTORS.find? fun s => s.toLower = normalized with
          | some direct => direct
          | none => "Unknown"

/-- `SEVERITY_SCORE` ordinal mapping from `partitioner.ts`. -/
def SEVERITY_SCORE : Severity → ℕ
  | .low => 1
  | .medium => 2
  | .high => 3
  | .critical => 4

/-- The `variable(...)` builder from `partitioner.ts`: drops a field that is
null/undefined (`none`) or non-finite, otherwise passes its value through
verbatim. -/
def mkVariable (name : String) (value : Option JSNum)
    (category : VariableCategory) (industry : String) :
    Option PartitionedVariable :=
  match value with
  | some (.fin q) => some { name := name, value := q, category := category
                            industry := industry }
  | _ => none

/-- `collect(...)` from `partitioner.ts`. -/
def collect (maybeVars : List (Option PartitionedVariable)) :
    List PartitionedVariable :=
  maybeVars.filterMap id

/-- `MACRO_SERIES_CATEGORY` from `partitioner.ts`. -/
def MACRO_SERIES_CATEGORY : String → Option (VariableCategory × String)
  | "DCOILWTICO" => some (.financial, "crude_oil_wti_price")
  | "PCUOMFG" => some (.financial, "ppi_manufacturing")
  | "PPIACO" => some (.financial, "ppi_all_commodities")
  | "GSCPI" => some (.operational, "global_supply_chain_pressure_index")
  | "MANEMP" => some (.operational, "manufacturing_employment")
  | "NAPMII" => some (.operational, "ism_inventories_index")
  | "NAPMSDI" => some (.operational, "ism_supplier_deliveries_index")
  | "TOTALSA" => some (.operational, "total_vehicle_sales")
  | "BOPGSTB" => some (.geographical, "trade_balance_goods_services")
  | _ => none

/-- `computeHistoricalVolatility` from `partitioner.ts`.  `Math.log` and
`Math.sqrt` are external real-valued primitives; they are passed in as
abstract `JSNum → JSNum` functions. -/
def computeHistoricalVolatility (jsLog jsSqrt : JSNum → JSNum)
    (prices : Option (List HistoricalPrice)) : Option JSNum :=
  match prices with
  | none => none
  | some ps =>
    if ps.length < 10 then none
    else
      let window := ps.take 253
      let returns : List JSNum := (window.zip window.tail).filterMap
        fun (prev, cur) =>
          if prev.close = .fin 0 then none
          else some (jsLog (jsDiv cur.close prev.close))
      if returns.length < 5 then none
      else
        let n : ℚ := returns.length
        let mean := jsDiv (returns.foldl jsAdd (.fin 0)) (.fin n)
        let variance := jsDiv
          (returns.foldl
            (fun s r => jsAdd s (jsMul (jsSub r mean) (jsSub r mean)))
            (.fin 0))
          (.fin (n - 1))
        some (jsMul (jsSqrt variance) (jsSqrt (.fin 252)))

/-- `appendMacroVariables` from `partitioner.ts` (functional form: returns the
variables appended for the given category). -/
def macroVariables (data : AggregatedCompanyData)
    (category : VariableCategory) (industry : String) :
    List PartitionedVariable :=
  match data.macroIndicators.data with
  | none => []
  | some indicators =>
    indicators.foldl
      (fun acc indicator =>
        match MACRO_SERIES_CATEGORY indicator.seriesId with
        | none => acc
        | some (cat, displayName) =>
          if cat ≠ category then acc
          else
            match indicator.observations.head? with
            | none => acc
            | some latest =>
              match latest.value with
              | none => acc
              | some v =>
                acc ++ collect [mkVariable displayName (some v) category industry])
      []

def extractFinancialVariables (jsLog jsSqrt : JSNum → JSNum)
    (data : AggregatedCompanyData) (evaluated : Option EvaluatedData)
    (industry : String) : List PartitionedVariable :=
  let quote := data.stockQuote.data
  let health := data.financialHealth.data
  let vars := collect
    [ mkVariable "stock_price" (quote.map (·.price)) .financial industry,
      mkVariable "price_change_pct" (quote.map (·.changePercent)) .financial industry,
      mkVariable "trading_volume" (quote.map (·.volume)) .financial industry,
      mkVariable "market_cap" (quote.map (·.marketCap)) .financial industry,
      mkVariable "pe_ratio" (quote.bind (·.pe)) .financial industry,
      mkVariable "altman_z_score" (health.bind (·.altmanZScore)) .financial industry,
      mkVariable "piotroski_score" (health.bind (·.piotroskiScore)) .financial industry,
      mkVariable "debt_to_equity" (health.bind (·.debtToEquity)) .financial industry,
      mkVariable "current_ratio" (health.bind (·.currentRatio)) .financial industry,
      mkVariable "quick_ratio" (health.bind (·.quickRatio)) .financial industry,
      mkVariable "return_on_equity" (health.bind (·.returnOnEquity)) .financial industry,
      mkVariable "return_on_assets" (health.bind (·.returnOnAssets)) .financial industry,
      mkVariable "annualized_volatility"
        (computeHistoricalVolatility jsLog jsSqrt data.historicalPrices.data)
        .financial industry ]
  let vars :=
    match evaluated with
    | none => vars
    | some e =>
      let financialSignals := e.riskSignals.filter fun s => s.category = "financial"
      let aggregateSeverity : ℕ := financialSignals.foldl
        (fun sum s => sum + SEVERITY_SCORE s.severity) 0
      vars ++ collect
        [ mkVariable "financial_risk_signal_count"
            (some (.fin financialSignals.length)) .financial industry,
          mkVariable "financial_risk_severity_score"
            (some (.fin aggregateSeverity)) .financial industry ]
  vars ++ macroVariables data .financial industry

def extractOperationalVariables (data : AggregatedCompanyData)
    (evaluated : Option EvaluatedData) (industry : String) :
    List PartitionedVariable :=
  let vars := collect
    [ mkVariable "employee_count" (data.profile.data.bind (·.employees))
        .operational industry ]
  let vars :=
    match evaluated with
    | none => vars
    | some e =>
      let supplyChainSignals := e.riskSignals.filter fun s =>
        s.category = "supply_chain"
      let aggregateSeverity : ℕ := supplyChainSignals.foldl
        (fun sum s => sum + SEVERITY_SCORE s.severity) 0
      vars ++ collect
        [ mkVariable "supply_chain_risk_signal_count"
            (some (.fin supplyChainSignals.length)) .operational industry,
          mkVariable "supply_chain_risk_severity_score"
            (some (.fin aggregateSeverity)) .operational industry,
          mkVariable "supply_chain_insight_count"
            (some (.fin e.supplyChainInsights.length)) .operational industry ]
  let vars :=
    match data.secFilings.data with
    | none => vars
    | some filings =>
      vars ++ collect
        [ mkVariable "sec_filing_count" (some (.fin filings.length))
            .operational industry ]
  let vars :=
    match data.news.data with
    | none => vars
    | some articles =>
      vars ++ collect
        [ mkVariable "news_article_count" (some (.fin articles.length))
            .operational industry ]
  vars ++ macroVariables data .operational industry

def extractGeographicalVariables (data : AggregatedCompanyData)
    (industry : String) : List PartitionedVariable :=
  let vars : List PartitionedVariable :=
    match data.environmentalViolations.data with
    | none => []
    | some violations =>
      if violations.length = 0 then []
      else
        let distinctStates :=
          ((violations.map (·.state)).filter fun s => s ≠ "Unknown").eraseDups
        let base := collect
          [ mkVariable "facility_state_count"
              (some (.fin distinctStates.length)) .geographical industry,
            mkVariable "facility_count" (some (.fin violations.length))
              .geographical industry ]
        let known := violations.filter fun v => v.state ≠ "Unknown"
        let states := (known.map (·.state)).eraseDups
        let maxInSingleState : ℕ :=
          (states.map fun st => (known.filter fun v => v.state = st).length).foldl
            max 0
        let totalFacilities := known.length
        if totalFacilities > 0 then
          base ++ collect
            [ mkVariable "geographic_concentration_ratio"
                (some (.fin ((maxInSingleState : ℚ) / (totalFacilities : ℚ))))
                .geographical industry ]
        else base
  vars ++ macroVariables data .geographical industry

/-- The ethical-adjacent signal categories iterated in
`extractEthicalVariables`. -/
def ETHICAL_SIGNAL_CATEGORIES : List String :=
  ["regulatory", "litigation", "environmental", "safety"]

def extractEthicalVariables (data : AggregatedCompanyData)
    (evaluated : Option EvaluatedData) (industry : String) :
    List PartitionedVariable :=
  let vars : List PartitionedVariable :=
    match data.environmentalViolations.data with
    | none => []
    | some violations =>
      let totalPenalties := violations.foldl
        (fun sum v => jsAdd sum (v.penaltyAmount.getD (.fin 0))) (.fin 0)
      collect
        [ mkVariable "environmental_violation_count"
            (some (.fin violations.length)) .ethical industry,
          mkVariable "environmental_total_penalties" (some totalPenalties)
            .ethical industry ]
  match evaluated with
  | none => vars
  | some e =>
    ETHICAL_SIGNAL_CATEGORIES.foldl
      (fun acc cat =>
        let signals := e.riskSignals.filter fun s => s.category = cat
        let aggregateSeverity : ℕ := signals.foldl
          (fun sum s => sum + SEVERITY_SCORE s.severity) 0
        acc ++ collect
          [ mkVariable (cat ++ "_risk_signal_count")
              (some (.fin signals.length)) .ethical industry,
            mkVariable (cat ++ "_risk_severity_score")
              (some (.fin aggregateSeverity)) .ethical industry ])
      vars

/-- `partitionVariables` from `partitioner.ts`. -/
def partitionVariables (jsLog jsSqrt : JSNum → JSNum)
    (aggregated : AggregatedCompanyData) (evaluated : Option EvaluatedData) :
    PartitionedVariables :=
  let industry := resolveIndustry (aggregated.profile.data.map (·.sector))
  { industry := industry
    financial := extractFinancialVariables jsLog jsSqrt aggregated evaluated industry
    operational := extractOperationalVariables aggregated evaluated industry
    geographical := extractGeographicalVariables aggregated industry
    ethical := extractEthicalVariables aggregated evaluated industry }

-- ---------------------------------------------------------------------------
-- Data-source wrappers and the aggregator (`data-sources/*`, aggregator file)
--
-- Every provider fetch is modelled by the outcome of its external call:
-- either the awaited promise chain threw (network error, non-2xx status,
-- malformed JSON, missing API key, ...) or it produced a payload.  The payload
-- carries the information the wrapper branches on; items dropped or nulled by
-- schema validation (`safeParse` / `safeParseArray`) are represented inside
-- the payload.
-- ---------------------------------------------------------------------------

/-- Outcome of one external call: the promise threw, or returned a payload. -/
inductive FetchOutcome (α : Type)
  | thrown (msg : String)
  | ok (payload : α)
  deriving DecidableEq, Repr

/-- Payload of the FMP profile endpoint: the returned array, each item
replaced by its `CompanyProfileSchema` parse result (`none` = the item does
not conform, in which case `safeParse` falls back to `null`). -/
def ProfilePayload := List (Option CompanyProfile)

/-- `fetchCompanyProfile` from `fmp.ts`. -/
def fetchCompanyProfile (ticker : String)
    (outcome : FetchOutcome ProfilePayload) (fetchedAt : String) :
    DataSourceResult CompanyProfile :=
  match outcome with
  | .thrown msg => sourceError "fmp:profile" msg fetchedAt
  | .ok raw =>
    match raw.head? with
    | none => sourceError "fmp:profile" ("No profile found for " ++ ticker)
        fetchedAt
    | some item =>
      -- `sourceSuccess(..., safeParse(schema, mapped, null))`: on a schema
      -- violation the data is `null` while `success` stays `true`.
      { source := "fmp:profile", success := true, data := item, error := none
        fetchedAt := fetchedAt }

def QuotePayload := List (Option StockQuote)

/-- `fetchStockQuote` from `fmp.ts`. -/
def fetchStockQuote (ticker : String) (outcome : FetchOutcome QuotePayload)
    (fetchedAt : String) : DataSourceResult StockQuote :=
  match outcome with
  | .thrown msg => sourceError "fmp:quote" msg fetchedAt
  | .ok raw =>
    match raw.head? with
    | none => sourceError "fmp:quote" ("No quote for " ++ ticker) fetchedAt
    | some item =>
      { source := "fmp:quote", success := true, data := item, error := none
        fetchedAt := fetchedAt }

/-- Payload of the historical-price endpoint: `none` when neither the
response nor its `historical` field is an array, else the
schema-filtered price list. -/
def PricesPayload := Option (List HistoricalPrice)

/-- `fetchHistoricalPrices` from `fmp.ts`: a non-array payload degrades to an
empty *successful* result. -/
def fetchHistoricalPrices (outcome : FetchOutcome PricesPayload)
    (fetchedAt : String) : DataSourceResult (List HistoricalPrice) :=
  match outcome with
  | .thrown msg => sourceError "fmp:historical" msg fetchedAt
  | .ok none => sourceSuccess "fmp:historical" [] fetchedAt
  | .ok (some prices) => sourceSuccess "fmp:historical" prices fetchedAt

/-- `fetchIncomeStatements` from `fmp.ts` (payload = schema-filtered rows). -/
def fetchIncomeStatements (outcome : FetchOutcome (List IncomeStatement))
    (fetchedAt : String) : DataSourceResult (List IncomeStatement) :=
  match outcome with
  | .thrown msg => sourceError "fmp:income" msg fetchedAt
  | .ok rows => sourceSuccess "fmp:income" rows fetchedAt

/-- `fetchBalanceSheets` from `fmp.ts`. -/
def fetchBalanceSheets (outcome : FetchOutcome (List BalanceSheet))
    (fetchedAt : String) : DataSourceResult (List BalanceSheet) :=
  match outcome with
  | .thrown msg => sourceError "fmp:balance" msg fetchedAt
  | .ok rows => sourceSuccess "fmp:balance" rows fetchedAt

/-- `fetchCashFlows` from `fmp.ts`. -/
def fetchCashFlows (outcome : FetchOutcome (List CashFlowStatement))
    (fetchedAt : String) : DataSourceResult (List CashFlowStatement) :=
  match outcome with
  | .thrown msg => sourceError "fmp:cashflow" msg fetchedAt
  | .ok rows => sourceSuccess "fmp:cashflow" rows fetchedAt

/-- `fetchFinancialHealth` from `fmp.ts`: the two inner fetches already
default to `[]` on failure, and the mapped object always passes its schema,
so a non-thrown outcome is always a success. -/
def fetchFinancialHealth (outcome : FetchOutcome FinancialHealth)
    (fetchedAt : String) : DataSourceResult FinancialHealth :=
  match outcome with
  | .thrown msg => sourceError "fmp:health" msg fetchedAt
  | .ok health => sourceSuccess "fmp:health" health fetchedAt

/-- Payload of the EDGAR submissions flow in `fetchSecFilings`. -/
inductive FilingsPayload
  | cikUnresolved
  | noRecent
  | recent (filings : List SecFiling)
  deriving DecidableEq, Repr

/-- `fetchSecFilings` from `edgar.ts` (the form filter and limit are folded
into the `recent` payload). -/
def fetchSecFilings (ticker : String) (outcome : FetchOutcome FilingsPayload)
    (fetchedAt : String) : DataSourceResult (List SecFiling) :=
  match outcome with
  | .thrown msg => sourceError "edgar:filings" msg fetchedAt
  | .ok .cikUnresolved =>
      sourceError "edgar:filings" ("Could not resolve CIK for " ++ ticker)
        fetchedAt
  | .ok .noRecent => sourceSuccess "edgar:filings" [] fetchedAt
  | .ok (.recent filings) => sourceSuccess "edgar:filings" filings fetchedAt

/-- `deduplicateArticles` from `news.ts`: URL-based, first occurrence wins. -/
def deduplicateArticles (articles : List NewsArticle) : List NewsArticle :=
  (articles.foldl
    (fun (acc : List String × List NewsArticle) article =>
      if acc.1.contains article.url then acc
      else (acc.1 ++ [article.url], acc.2 ++ [article]))
    ([], [])).2

/-- `fetchSupplyChainNews` from `news.ts`: the three inner `searchNews` calls
never throw; the payload is the concatenation of the successful queries'
articles, which the wrapper deduplicates.  A non-thrown outcome always
succeeds. -/
def fetchSupplyChainNews (outcome : FetchOutcome (List NewsArticle))
    (fetchedAt : String) : DataSourceResult (List NewsArticle) :=
  match outcome with
  | .thrown msg => sourceError "newsapi:supply-chain" msg fetchedAt
  | .ok articles =>
      sourceSuccess "newsapi:supply-chain" (deduplicateArticles articles)
        fetchedAt

/-- `fetchLitigationNews` from `news.ts`. -/
def fetchLitigationNews (outcome : FetchOutcome (List NewsArticle))
    (fetchedAt : String) : DataSourceResult (List NewsArticle) :=
  match outcome with
  | .thrown msg => sourceError "newsapi:litigation" msg fetchedAt
  | .ok articles =>
      sourceSuccess "newsapi:litigation" (deduplicateArticles articles)
        fetchedAt

/-- `fetchSupplyChainIndicators` from `fred.ts`: per-series failures are
dropped by `Promise.allSettled`, so a non-thrown outcome always succeeds. -/
def fetchSupplyChainIndicators (outcome : FetchOutcome (List MacroIndicator))
    (fetchedAt : String) : DataSourceResult (List MacroIndicator) :=
  match outcome with
  | .thrown msg => sourceError "fred:macro" msg fetchedAt
  | .ok indicators => sourceSuccess "fred:macro" indicators fetchedAt

/-- Payload of the EPA ECHO summary response in
`fetchEnvironmentalViolations`. -/
inductive EpaPayload
  | badMessage (message : Option String)
  | summary (violations : List EnvironmentalViolation)
  deriving DecidableEq, Repr

/-- `fetchEnvironmentalViolations` from `epa.ts` (the synthesis of violation
records from the summary counts is folded into the `summary` payload). -/
def fetchEnvironmentalViolations (outcome : FetchOutcome EpaPayload)
    (fetchedAt : String) : DataSourceResult (List EnvironmentalViolation) :=
  match outcome with
  | .thrown msg => sourceError "epa:violations" msg fetchedAt
  | .ok (.badMessage message) =>
      sourceError "epa:violations"
        (message.getD "EPA search returned no results") fetchedAt
  | .ok (.summary violations) =>
      sourceSuccess "epa:violations" violations fetchedAt

/-- `fetchOshaInspections` from `osha.ts`. -/
def fetchOshaInspections (outcome : FetchOutcome (List OshaInspection))
    (fetchedAt : String) : DataSourceResult (List OshaInspection) :=
  match outcome with
  | .thrown msg => sourceError "osha:inspections" msg fetchedAt
  | .ok inspections => sourceSuccess "osha:inspections" inspections fetchedAt

/-- `researchCompanySupplyChain` from `firecrawl.ts`: per-query failures are
dropped by `Promise.allSettled`, so a non-thrown outcome always succeeds. -/
def researchCompanySupplyChain (outcome : FetchOutcome (List WebResearchResult))
    (fetchedAt : String) : DataSourceResult (List WebResearchResult) :=
  match outcome with
  | .thrown msg => sourceError "firecrawl:research" msg fetchedAt
  | .ok results => sourceSuccess "firecrawl:research" results fetchedAt

/-- JS truthiness of `result.error` (a `string | null`): `null` and the empty
string are falsy. -/
def errTruthy (error : Option String) : Bool :=
  match error with
  | none => false
  | some s => s ≠ ""

/-- The accumulation loop of `mergeNewsResults`: URL-deduplicated merge of
the successful results' article lists. -/
def mergeNewsLoop (results : List (DataSourceResult (List NewsArticle))) :
    List NewsArticle :=
  (results.foldl
    (fun (acc : List String × List NewsArticle) result =>
      if result.success = false ∨ result.data = none then acc
      else (result.data.getD []).foldl
        (fun (acc2 : List String × List NewsArticle) article =>
          if acc2.1.contains article.url then acc2
          else (acc2.1 ++ [article.url], acc2.2 ++ [article]))
        acc)
    ([], [])).2

/-- `mergeNewsResults` from the aggregator module. -/
def mergeNewsResults (results : List (DataSourceResult (List NewsArticle)))
    (fetchedAt : String) : DataSourceResult (List NewsArticle) :=
  let merged := mergeNewsLoop results
  if merged.length > 0 then
    { source := "newsapi:merged", success := true, data := some merged
      error := none, fetchedAt := fetchedAt }
  else
    let firstError :=
      (((results.find? fun r => errTruthy r.error).bind (·.error)).getD
        "No news found")
    sourceError "newsapi:merged" firstError fetchedAt

/-- One outcome per provider call issued by `aggregateCompanyData`. -/
structure ProviderOutcomes where
  profile : FetchOutcome ProfilePayload
  stockQuote : FetchOutcome QuotePayload
  historicalPrices : FetchOutcome PricesPayload
  incomeStatements : FetchOutcome (List IncomeStatement)
  balanceSheets : FetchOutcome (List BalanceSheet)
  cashFlows : FetchOutcome (List CashFlowStatement)
  financialHealth : FetchOutcome FinancialHealth
  secFilings : FetchOutcome FilingsPayload
  supplyChainNews : FetchOutcome (List NewsArticle)
  litigationNews : FetchOutcome (List NewsArticle)
  macroIndicators : FetchOutcome (List MacroIndicator)
  environmentalViolations : FetchOutcome EpaPayload
  oshaInspections : FetchOutcome (List OshaInspection)
  webResearch : FetchOutcome (List WebResearchResult)

/-- `aggregateCompanyData` from the aggregator module: pure fan-out/merge.
Each wrapper converts its own failure into a `DataSourceResult`; the function
is total, so no provider outcome can abort the aggregation. -/
def aggregateCompanyData (company : CompanyIdentifier)
    (o : ProviderOutcomes) (fetchedAt : String) : AggregatedCompanyData :=
  let supplyChainNews := fetchSupplyChainNews o.supplyChainNews fetchedAt
  let litigationNews := fetchLitigationNews o.litigationNews fetchedAt
  { company := company
    profile := fetchCompanyProfile company.ticker o.profile fetchedAt
    stockQuote := fetchStockQuote company.ticker o.stockQuote fetchedAt
    historicalPrices := fetchHistoricalPrices o.historicalPrices fetchedAt
    incomeStatements := fetchIncomeStatements o.incomeStatements fetchedAt
    balanceSheets := fetchBalanceSheets o.balanceSheets fetchedAt
    cashFlows := fetchCashFlows o.cashFlows fetchedAt
    financialHealth := fetchFinancialHealth o.financialHealth fetchedAt
    secFilings := fetchSecFilings company.ticker o.secFilings fetchedAt
    news := mergeNewsResults [supplyChainNews, litigationNews] fetchedAt
    macroIndicators := fetchSupplyChainIndicators o.macroIndicators fetchedAt
    environmentalViolations :=
      fetchEnvironmentalViolations o.environmentalViolations fetchedAt
    oshaInspections := fetchOshaInspections o.oshaInspections fetchedAt
    webResearch := researchCompanySupplyChain o.webResearch fetchedAt }

-- ---------------------------------------------------------------------------
-- Fallback dependency generator (`vendor-analyzer.ts`,
-- `buildFallbackDependencies`)
-- ---------------------------------------------------------------------------

structure DependencySupplierTier3 where
  id : String
  name : String
  sector : String
  country : String
  risk_level : String
  criticality : String
  dependency_type : String
  deriving DecidableEq, Repr

structure DependencySupplierTier2 where
  id : String
  name : String
  sector : String
  country : String
  risk_level : String
  criticality : String
  dependency_type : String
  tier3_suppliers : List DependencySupplierTier3
  deriving DecidableEq, Repr

structure DependencySummary where
  tier2_count : ℕ
  tier3_count : ℕ
  countries_represented : ℕ
  sectors_represented : ℕ
  critical_dependency_count : ℕ
  deriving DecidableEq, Repr

structure ConcentrationRisk where
  label : String
  severity : String
  description : String
  deriving DecidableEq, Repr

structure DependenciesResponse where
  vendor_id : String
  summary : DependencySummary
  concentration_risks : List ConcentrationRisk
  tier2_suppliers : List DependencySupplierTier2
  deriving DecidableEq, Repr

/-- `buildFallbackDependencies` from `vendor-analyzer.ts`. -/
def buildFallbackDependencies (vendorId : String)
    (aggregated : AggregatedCompanyData) : DependenciesResponse :=
  let sector := (aggregated.profile.data.map (·.sector)).getD "Unknown"
  let country := (aggregated.profile.data.map (·.country)).getD "US"
  { vendor_id := vendorId
    summary :=
      { tier2_count := 3, tier3_count := 5, countries_represented := 3
        sectors_represented := 2, critical_dependency_count := 1 }
    concentration_risks :=
      [ { label := "Limited data availability"
          severity := "Moderate"
          description := "Dependency analysis is limited due to unavailable LLM evaluation. Data shown is estimated based on industry norms." } ]
    tier2_suppliers :=
      [ { id := "n_001"
          name := sector ++ " Component Supplier A"
          sector := "Components"
          country := country
          risk_level := "Moderate"
          criticality := "High"
          dependency_type := "Component"
          tier3_suppliers :=
            [ { id := "n_004", name := "Raw Material Provider A"
                sector := "Raw Materials", country := "China"
                risk_level := "Moderate", criticality := "Moderate"
                dependency_type := "Raw Material" } ] },
        { id := "n_002"
          name := sector ++ " Service Provider B"
          sector := "Services"
          country := "United States"
          risk_level := "Low"
          criticality := "Moderate"
          dependency_type := "Service"
          tier3_suppliers :=
            [ { id := "n_005", name := "Cloud Infrastructure Provider"
                sector := "Technology", country := "United States"
                risk_level := "Low", criticality := "High"
                dependency_type := "Service" } ] },
        { id := "n_003"
          name := "Logistics Partner C"
          sector := "Transportation"
          country := "Germany"
          risk_level := "Low"
          criticality := "Moderate"
          dependency_type := "Logistics"
          tier3_suppliers := [] } ] }

-- ---------------------------------------------------------------------------
-- Vendor store / job orchestrator (`vendor-store.ts`)
--
-- The store is the single shared mutable map.  `triggerAnalysis` inserts a
-- `processing` entry under a freshly generated id and fires `runPipeline` in
-- the background; that pipeline performs exactly one terminal transition on
-- its entry (to `complete` in the success path of its `try`, or to `failed`
-- in its `catch`).  The state machine below models the store contents plus
-- the set of in-flight pipeline runs; generated ids are fresh (the random id
-- collides with an existing entry with negligible probability, and a fresh
-- id is the source's evident intent).
-- ---------------------------------------------------------------------------

inductive VendorStatus
  | processing
  | complete
  | failed
  deriving DecidableEq, Repr

/-- Terminal states of the job lifecycle. -/
def VendorStatus.isTerminal : VendorStatus → Bool
  | .processing => false
  | .complete => true
  | .failed => true

structure VendorEntry (R : Type) where
  vendorId : String
  vendorName : String
  status : VendorStatus
  error : Option String
  result : Option R
  createdAt : String
  completedAt : Option String
  deriving DecidableEq, Repr

/-- Store contents plus the ids of in-flight background pipeline runs. -/
structure StoreState (R : Type) where
  entries : List (String × VendorEntry R)
  pending : List String

/-- `store.get(id)` on the association list (most recent insertion wins,
like `Map.set`/`Map.get`). -/
def lookupEntry {R : Type} :
    List (String × VendorEntry R) → String → Option (VendorEntry R)
  | [], _ => none
  | (k, v) :: rest, id => if id = k then some v else lookupEntry rest id

def StoreState.lookup {R : Type} (s : StoreState R) (id : String) :
    Option (VendorEntry R) :=
  lookupEntry s.entries id

/-- The entry inserted by `triggerAnalysis`. -/
def freshEntry (R : Type) (id name createdAt : String) : VendorEntry R :=
  { vendorId := id, vendorName := name, status := .processing, error := none
    result := none, createdAt := createdAt, completedAt := none }

def StoreState.trigger {R : Type} (s : StoreState R)
    (id name createdAt : String) : StoreState R :=
  { entries := (id, freshEntry R id name createdAt) :: s.entries
    pending := id :: s.pending }

def updateEntry {R : Type} (entries : List (String × VendorEntry R))
    (id : String) (f : VendorEntry R → VendorEntry R) :
    List (String × VendorEntry R) :=
  entries.map fun p => if p.1 = id then (p.1, f p.2) else p

/-- The success path of `runPipeline`: store the result, set `complete`. -/
def StoreState.finishOk {R : Type} (s : StoreState R) (id : String) (res : R)
    (completedAt : String) : StoreState R :=
  { entries := updateEntry s.entries id fun e =>
      { e with result := some res, status := .complete
               completedAt := some completedAt }
    pending := s.pending.erase id }

/-- The `catch` path of `runPipeline`: set `failed`, record the message. -/
def StoreState.finishErr {R : Type} (s : StoreState R) (id msg : String)
    (completedAt : String) : StoreState R :=
  { entries := updateEntry s.entries id fun e =>
      { e with status := .failed, error := some msg
               completedAt := some completedAt }
    pending := s.pending.erase id }

/-- One observable store operation.  Lookups (`getVendor`,
`getVendorResult`, `getMultipleVendorResults`) are pure reads and do not
change the state. -/
inductive StoreStep (R : Type) : StoreState R → StoreState R → Prop
  | trigger (s : StoreState R) (id name createdAt : String)
      (fresh : s.lookup id = none) :
      StoreStep R s (s.trigger id name createdAt)
  | finishOk (s : StoreState R) (id : String) (res : R) (completedAt : String)
      (started : id ∈ s.pending) :
      StoreStep R s (s.finishOk id res completedAt)
  | finishErr (s : StoreState R) (id msg completedAt : String)
      (started : id ∈ s.pending) :
      StoreStep R s (s.finishErr id msg completedAt)

/-- The empty store the module starts with. -/
def initialStore (R : Type) : StoreState R := { entries := [], pending := [] }

/-- States reachable from the empty store by store operations. -/
def ReachableStore (R : Type) (s : StoreState R) : Prop :=
  Relation.ReflTransGen (StoreStep R) (initialStore R) s

-- ---------------------------------------------------------------------------
-- Spec-side definitions (formulations taken from the specification's words,
-- to be compared with the code-side definitions above)
-- ---------------------------------------------------------------------------

/-- Spec-side description: the benchmark risk contributions of the present
variables, one per benchmark rule whose variable is found. -/
def benchmarkScores (vbls : List PartitionedVariable)
    (benchmarks : List BenchmarkRule) : List ℚ :=
  benchmarks.filterMap fun b =>
    (vbls.find? fun v => v.name = b.variableName).map fun v => b.riskFn v.value

/-- Spec-side description: arithmetic mean of the benchmark contributions. -/
def benchmarkAverage (vbls : List PartitionedVariable)
    (benchmarks : List BenchmarkRule) : ℚ :=
  (benchmarkScores vbls benchmarks).sum / (benchmarkScores vbls benchmarks).length

/-- Spec-side description of the evaluation-derived risk for a scoring
category: signals whose category tag lies in the category's fixed filter set,
scored as `min(100, round(meanSeverityWeight + signalCount * 3))`, defaulting
to 50 for a null evaluation and 35 for zero matching signals. -/
def specEvaluationRisk (cat : VariableCategory)
    (evaluated : Option EvaluatedData) : ℚ :=
  match evaluated with
  | none => 50
  | some e =>
    let matching := e.riskSignals.filter fun s =>
      s.category ∈ CATEGORY_EVAL_FILTERS cat
    if matching.length = 0 then 35
    else
      let meanSeverityWeight :=
        ((matching.map fun s => SEVERITY_WEIGHT s.severity).sum)
          / matching.length
      min 100 (jsRoundQ (meanSeverityWeight + matching.length * 3))

/-- Spec-side description of first-occurrence-wins URL deduplication. -/
def dedupByUrlSpec : List NewsArticle → List NewsArticle
  | [] => []
  | a :: rest => a :: dedupByUrlSpec (rest.filter fun b => b.url ≠ a.url)
termination_by l => l.length
decreasing_by
  simpa using Nat.lt_succ_of_le (List.length_filter_le _ _)

/-- Spec-side description: the articles contributed by the successful
constituent news query results, in order. -/
def successfulArticles (results : List (DataSourceResult (List NewsArticle))) :
    List NewsArticle :=
  (results.filter fun r => r.success ∧ r.data ≠ none).foldr
    (fun r acc => r.data.getD [] ++ acc) []

/-- Spec-side description: the first surviving error among the constituent
results (`No news found` when none carries a truthy error message). -/
def firstErrorSpec (results : List (DataSourceResult (List NewsArticle))) :
    String :=
  (((results.find? fun r => errTruthy r.error).bind (·.error)).getD
    "No news found")

/-- Deduplication with an explicit seen-set, mirroring the state of the
accumulation loops in `mergeNewsResults` / `deduplicateArticles`. -/
def dedupSeen (seen : List String) : List NewsArticle → List NewsArticle
  | [] => []
  | a :: rest =>
    if seen.contains a.url then dedupSeen seen rest
    else a :: dedupSeen (seen ++ [a.url]) rest

/-- Spec-side characterization: does the profile fetch produce a successful
entry?  (Thrown call or empty payload array fail; a present first item
succeeds even when it violates the schema.) -/
def profileOutcomeSucceeds : FetchOutcome ProfilePayload → Bool
  | .ok (_ :: _) => true
  | _ => false

/-- Spec-side characterization for the quote fetch (same shape as the
profile fetch). -/
def quoteOutcomeSucceeds : FetchOutcome QuotePayload → Bool
  | .ok (_ :: _) => true
  | _ => false

/-- Spec-side characterization for the fetches that succeed on every
non-thrown outcome. -/
def simpleOutcomeSucceeds {α : Type} : FetchOutcome α → Bool
  | .ok _ => true
  | .thrown _ => false

/-- Spec-side characterization for the EDGAR filings fetch: an unresolvable
CIK fails, everything else non-thrown succeeds. -/
def filingsOutcomeSucceeds : FetchOutcome FilingsPayload → Bool
  | .ok .cikUnresolved => false
  | .ok _ => true
  | .thrown _ => false

/-- Spec-side characterization for the EPA fetch: a non-`Success` message
fails, a summary succeeds. -/
def epaOutcomeSucceeds : FetchOutcome EpaPayload → Bool
  | .ok (.badMessage _) => false
  | .ok (.summary _) => true
  | .thrown _ => false

/-- Spec-side description: the articles the two news queries contribute to
the merge (the per-query deduplicated lists of the non-thrown queries). -/
def newsOutcomesArticles (sc lit : FetchOutcome (List NewsArticle)) :
    List NewsArticle :=
  (match sc with
    | .ok articles => deduplicateArticles articles
    | .thrown _ => [])
  ++ (match lit with
    | .ok articles => deduplicateArticles articles
    | .thrown _ => [])

/-- Every aggregated entry with `success = false` carries a non-null error
(checked across all entries of the record). -/
def entriesErrorConsistent (a : AggregatedCompanyData) : Bool :=
  [ (a.profile.success, a.profile.error),
    (a.stockQuote.success, a.stockQuote.error),
    (a.historicalPrices.success, a.historicalPrices.error),
    (a.incomeStatements.success, a.incomeStatements.error),
    (a.balanceSheets.success, a.balanceSheets.error),
    (a.cashFlows.success, a.cashFlows.error),
    (a.financialHealth.success, a.financialHealth.error),
    (a.secFilings.success, a.secFilings.error),
    (a.news.success, a.news.error),
    (a.macroIndicators.success, a.macroIndicators.error),
    (a.environmentalViolations.success, a.environmentalViolations.error),
    (a.oshaInspections.success, a.oshaInspections.error),
    (a.webResearch.success, a.webResearch.error) ].all
    fun p => p.1 || p.2.isSome

/-- A score field is well-formed when it is an integer in `[0, 100]`. -/
def ScoreOK (q : ℚ) : Prop := IsIntQ q ∧ 0 ≤ q ∧ q ≤ 100

-- ---------------------------------------------------------------------------
-- Concrete inputs used by witnesses and counterexamples
-- ---------------------------------------------------------------------------

/-- Spec-scenario variable: `altman_z_score = 3.5`. -/
def altmanVar : PartitionedVariable :=
  { name := "altman_z_score", value := 35/10, category := .financial
    industry := "Technology" }

/-- Spec-scenario variable: `debt_to_equity = 2.5`. -/
def debtVar : PartitionedVariable :=
  { name := "debt_to_equity", value := 25/10, category := .financial
    industry := "Technology" }

/-- A partition with no extracted variables at all. -/
def emptyPV : PartitionedVariables :=
  { industry := "Unknown", financial := [], operational := []
    geographical := [], ethical := [] }

/-- A jitter draw within the `randomJitter(8)` range. -/
def jitA : VariableCategory → ℚ := fun _ => 7/2

/-- Another jitter draw within the `randomJitter(8)` range. -/
def jitB : VariableCategory → ℚ := fun _ => -2

/-- The `randomJitter(8)` draws all lie in `[-4, 4)`; `jitterBounded` is the
(slightly wider) bound `|j| ≤ 4` used by the jitter theorems. -/
def jitterBounded (j : VariableCategory → ℚ) : Prop := ∀ c, |j c| ≤ 4

/-- A concrete resolved company. -/
def cid0 : CompanyIdentifier := { ticker := "T", name := some "TestCo" }

/-- A concrete schema-conformant profile. -/
def profile0 : CompanyProfile :=
  { symbol := "T", companyName := "TestCo", sector := "Technology"
    country := "United States", employees := none }

/-- A concrete schema-conformant quote. -/
def quote0 : StockQuote :=
  { price := .fin 1, change := .fin 0, changePercent := .fin 0
    volume := .fin 0, marketCap := .fin 0, pe := none }

/-- A concrete health record with every ratio absent. -/
def health0 : FinancialHealth :=
  { altmanZScore := none, piotroskiScore := none, debtToEquity := none
    currentRatio := none, quickRatio := none, returnOnEquity := none
    returnOnAssets := none }

/-- Is the source field absent (null/undefined) or non-finite? -/
def notFiniteOpt : Option JSNum → Bool
  | some (.fin _) => false
  | _ => true

/-- The invariant carried by every reachable store state: pending pipeline
ids are distinct, every pending id has an entry, and a terminal entry has no
pipeline still running for it. -/
def StoreInv {R : Type} (s : StoreState R) : Prop :=
  s.pending.Nodup
  ∧ (∀ id, id ∈ s.pending → ∃ e, s.lookup id = some e)
  ∧ (∀ id e, s.lookup id = some e → e.status.isTerminal = true →
      id ∉ s.pending)

/-- Provider outcomes where every provider call succeeds but both news
queries return zero articles. -/
def oAllOk : ProviderOutcomes :=
  { profile := .ok [some profile0]
    stockQuote := .ok [some quote0]
    historicalPrices := .ok (some [])
    incomeStatements := .ok []
    balanceSheets := .ok []
    cashFlows := .ok []
    financialHealth := .ok health0
    secFilings := .ok .noRecent
    supplyChainNews := .ok []
    litigationNews := .ok []
    macroIndicators := .ok []
    environmentalViolations := .ok (.summary [])
    oshaInspections := .ok []
    webResearch := .ok [] }

/-- Outcomes like `oAllOk` but with an empty profile payload, so the profile
entry fails and downstream consumers fall back to defaults. -/
def oNoProfile : ProviderOutcomes := { oAllOk with profile := .ok [] }

/-- A schema-conformant quote whose `pe` parsed to NaN. -/
def quoteNan : StockQuote := { quote0 with pe := some .nan }

/-- Outcomes like `oAllOk` but with a NaN `pe` in the quote. -/
def oPeNan : ProviderOutcomes := { oAllOk with stockQuote := .ok [some quoteNan] }

/-- Store-run states used by the vendor-store witness (result type `Unit`). -/
def storeS0 : StoreState Unit := initialStore Unit

def storeS1 : StoreState Unit := storeS0.trigger "vnd_a" "Acme" "t0"

def storeS2 : StoreState Unit := storeS1.finishOk "vnd_a" () "t1"

def storeS3 : StoreState Unit := storeS2.trigger "vnd_b" "Beta" "t2"

/-- The terminal entry for `vnd_a` after its pipeline completed. -/
def entryDone : VendorEntry Unit :=
  { vendorId := "vnd_a", vendorName := "Acme", status := .complete
    error := none, result := some (), createdAt := "t0"
    completedAt := some "t1" }

-- ---------------------------------------------------------------------------
-- Arithmetic helper lemmas
-- ---------------------------------------------------------------------------

theorem jsRound_eq_floor (q : ℚ) : jsRound q = ⌊q + 1/2⌋ :=
  (Rat.floor_def' _).trans Rat.floor_def.symm

theorem jsRound_intCast (n : ℤ) : jsRound (n : ℚ) = n := by
  rw [jsRound_eq_floor, Int.floor_eq_iff]
  constructor
  · linarith
  · have : ((n + 1 : ℤ) : ℚ) = (n : ℚ) + 1 := by push_cast; ring
    linarith [this]

theorem jsRoundQ_intCast (n : ℤ) : jsRoundQ (n : ℚ) = (n : ℚ) := by
  rw [jsRoundQ, jsRound_intCast]

theorem abs_jsRoundQ_sub_le (q : ℚ) : |jsRoundQ q - q| ≤ 1/2 := by
  rw [abs_le]
  have h1 : (jsRound q : ℚ) ≤ q + 1/2 := by
    rw [jsRound_eq_floor]; exact Int.floor_le _
  have h2 : q + 1/2 - 1 < (jsRound q : ℚ) := by
    rw [jsRound_eq_floor]; exact Int.sub_one_lt_floor _
  constructor <;> simp only [jsRoundQ] <;> linarith

theorem isIntQ_jsRoundQ (q : ℚ) : IsIntQ (jsRoundQ q) := ⟨jsRound q, rfl⟩

theorem isIntQ_intCast (n : ℤ) : IsIntQ (n : ℚ) := ⟨n, rfl⟩

theorem isIntQ_min100 {q : ℚ} (h : IsIntQ q) : IsIntQ (min 100 q) := by
  obtain ⟨n, rfl⟩ := h
  refine ⟨min 100 n, ?_⟩
  rcases le_total (100 : ℤ) n with hle | hle
  · rw [min_eq_left hle, min_eq_left]
    · norm_num
    · exact_mod_cast hle
  · rw [min_eq_right hle, min_eq_right]
    exact_mod_cast hle

theorem isIntQ_clamp (q : ℚ) : IsIntQ (clamp q) := by
  refine ⟨max 0 (min 100 (jsRound q)), ?_⟩
  rw [clamp, jsRoundQ]
  push_cast
  rfl

theorem clamp_nonneg (q : ℚ) : 0 ≤ clamp q := le_max_left _ _

theorem clamp_le_100 (q : ℚ) : clamp q ≤ 100 :=
  max_le (by norm_num) (min_le_left _ _)

/-- `clamp` fixes integers already in `[0, 100]`. -/
theorem clamp_intCast_of_mem {n : ℤ} (h0 : 0 ≤ n) (h1 : n ≤ 100) :
    clamp (n : ℚ) = (n : ℚ) := by
  rw [clamp, jsRoundQ_intCast, min_eq_right (by exact_mod_cast h1),
    max_eq_right (by exact_mod_cast h0)]

-- ---------------------------------------------------------------------------
-- C1: benchmark blending in `scoreCategory`
-- ---------------------------------------------------------------------------

theorem foldl_push_eq_filterMap {α β : Type} (f : α → Option β) (l : List α)
    (acc : List β) :
    l.foldl (fun acc b => acc ++ (f b).toList) acc = acc ++ l.filterMap f := by
  induction l generalizing acc with
  | nil => simp
  | cons hd tl ih =>
    cases hfd : f hd <;> simp [hfd, ih]

/-- `scoreCategory` in closed form. -/
theorem scoreCategory_eq (vbls : List PartitionedVariable)
    (bms : List BenchmarkRule) (er : ℚ) :
    scoreCategory vbls bms er =
      if (benchmarkScores vbls bms).length = 0 then er
      else jsRoundQ (benchmarkAverage vbls bms * (6/10) + er * (4/10)) := by
  have hfun : (fun (acc : List ℚ) (b : BenchmarkRule) =>
      match vbls.find? (fun v => v.name = b.variableName) with
      | some v => acc ++ [b.riskFn v.value]
      | none => acc)
      = fun (acc : List ℚ) (b : BenchmarkRule) =>
        acc ++ ((vbls.find? fun v => v.name = b.variableName).map
          (fun v => b.riskFn v.value)).toList := by
    funext acc b
    cases vbls.find? fun v => v.name = b.variableName <;> simp
  simp only [scoreCategory, hfun, foldl_push_eq_filterMap, List.nil_append,
    ← List.sum_eq_foldl, benchmarkScores, benchmarkAverage]

theorem benchmarkScores_ne_nil_iff (vbls : List PartitionedVariable)
    (bms : List BenchmarkRule) :
    (benchmarkScores vbls bms).length ≠ 0 ↔
      ∃ b ∈ bms, ∃ v ∈ vbls, v.name = b.variableName := by
  rw [Ne, List.length_eq_zero, benchmarkScores]
  constructor
  · intro h
    rcases List.exists_mem_of_ne_nil _ h with ⟨x, hx⟩
    rcases List.mem_filterMap.mp hx with ⟨b, hb, hmap⟩
    rcases Option.map_eq_some'.mp hmap with ⟨v, hfind, _⟩
    exact ⟨b, hb, v, List.mem_of_find?_eq_some hfind,
      by simpa using List.find?_some hfind⟩
  · rintro ⟨b, hb, v, hv, hname⟩ hnil
    have hsome : (vbls.find? fun v => v.name = b.variableName).isSome := by
      rw [List.find?_isSome]
      exact ⟨v, hv, decide_eq_true hname⟩
    rcases Option.isSome_iff_exists.mp hsome with ⟨w, hw⟩
    have : b.riskFn w.value ∈
        bms.filterMap fun b =>
          (vbls.find? fun v => v.name = b.variableName).map
            fun v => b.riskFn v.value :=
      List.mem_filterMap.mpr ⟨b, hb, by rw [hw]; rfl⟩
    rw [hnil] at this
    exact absurd this (List.not_mem_nil _)

/-- C1: a category's final risk score is
`round(benchmarkAverage * 0.6 + evaluationRisk * 0.4)` whenever at least one
of the category's known benchmark variables is present among the partitioned
variables, and is exactly the evaluation-derived risk when none is present
(`scoreCategory` in `risk-scorer.ts`). -/
theorem scoreCategory_blend_spec (vbls : List PartitionedVariable)
    (bms : List BenchmarkRule) (er : ℚ) :
    ((∃ b ∈ bms, ∃ v ∈ vbls, v.name = b.variableName) →
      scoreCategory vbls bms er
        = jsRoundQ (benchmarkAverage vbls bms * (6/10) + er * (4/10)))
    ∧ ((¬ ∃ b ∈ bms, ∃ v ∈ vbls, v.name = b.variableName) →
      scoreCategory vbls bms er = er) := by
  constructor
  · intro hex
    rw [scoreCategory_eq,
      if_neg ((benchmarkScores_ne_nil_iff vbls bms).mpr hex)]
  · intro hnex
    rw [scoreCategory_eq, if_pos]
    by_contra h
    exact hnex ((benchmarkScores_ne_nil_iff vbls bms).mp h)

/-- Witness for C1, matching the spec scenario: benchmarks
`altman_z_score = 3.5 → 15` and `debt_to_equity = 2.5 → 75` with evaluation
risk 40 give `round(((15+75)/2)*0.6 + 40*0.4) = 43`. -/
theorem scoreCategory_blend_spec_witness :
    (∃ b ∈ FINANCIAL_BENCHMARKS, ∃ v ∈ [altmanVar, debtVar],
      v.name = b.variableName)
    ∧ scoreCategory [altmanVar, debtVar] FINANCIAL_BENCHMARKS 40
      = jsRoundQ (benchmarkAverage [altmanVar, debtVar] FINANCIAL_BENCHMARKS
          * (6/10) + 40 * (4/10))
    ∧ scoreCategory [altmanVar, debtVar] FINANCIAL_BENCHMARKS 40 = 43 := by
  have hex : ∃ b ∈ FINANCIAL_BENCHMARKS, ∃ v ∈ [altmanVar, debtVar],
      v.name = b.variableName := by
    refine ⟨⟨"altman_z_score",
      fun v => if v > 2.99 then 15 else if v > 1.81 then 50 else 85⟩,
      ?_, altmanVar, by simp, rfl⟩
    simp [FINANCIAL_BENCHMARKS]
  have hblend := (scoreCategory_blend_spec [altmanVar, debtVar]
    FINANCIAL_BENCHMARKS 40).1 hex
  have hsc : benchmarkScores [altmanVar, debtVar] FINANCIAL_BENCHMARKS
      = [15, 75] := by
    simp [benchmarkScores, FINANCIAL_BENCHMARKS, List.find?, altmanVar, debtVar]
    norm_num
  have havg : benchmarkAverage [altmanVar, debtVar] FINANCIAL_BENCHMARKS
      = 45 := by
    rw [benchmarkAverage, hsc]
    norm_num
  refine ⟨hex, hblend, ?_⟩
  rw [hblend, havg,
    show (45 * (6/10) + 40 * (4/10) : ℚ) = ((43 : ℤ) : ℚ) by norm_num,
    jsRoundQ_intCast]
  norm_num

-- ---------------------------------------------------------------------------
-- C2: evaluation-derived risk
-- ---------------------------------------------------------------------------

theorem foldl_add_weight_eq_sum (l : List RiskSignal) :
    l.foldl (fun sum s => sum + SEVERITY_WEIGHT s.severity) 0
      = (l.map fun s => SEVERITY_WEIGHT s.severity).sum := by
  rw [List.sum_eq_foldl, List.foldl_map]

/-- C2: for every scoring category, the code's evaluation-derived risk (with
the category's fixed filter set from `CATEGORY_EVAL_FILTERS`) agrees with the
spec formula: signals filtered by category tag, severity weights
low=10/medium=30/high=60/critical=90, score
`min(100, round(meanSeverityWeight + signalCount*3))`, default 50 for a null
evaluation and 35 for zero matching signals
(`computeEvaluationRisk` in `risk-scorer.ts`). -/
theorem computeEvaluationRisk_spec (cat : VariableCategory)
    (evaluated : Option EvaluatedData) :
    computeEvaluationRisk evaluated (CATEGORY_EVAL_FILTERS cat)
      = specEvaluationRisk cat evaluated := by
  cases evaluated with
  | none => rfl
  | some e =>
    rw [computeEvaluationRisk, specEvaluationRisk]
    have hfilter : (e.riskSignals.filter fun s =>
        (CATEGORY_EVAL_FILTERS cat).contains s.category)
        = e.riskSignals.filter fun s =>
            s.category ∈ CATEGORY_EVAL_FILTERS cat := by
      apply List.filter_congr
      intro s _
      simp [List.elem_iff]
    simp only [hfilter, foldl_add_weight_eq_sum]

-- ---------------------------------------------------------------------------
-- C3: every score field is an integer in [0, 100]; levels follow the bands
-- ---------------------------------------------------------------------------

theorem isIntQ_computeEvaluationRisk (evaluated : Option EvaluatedData)
    (categoryFilter : List String) :
    IsIntQ (computeEvaluationRisk evaluated categoryFilter) := by
  cases evaluated with
  | none => exact ⟨50, by norm_num [computeEvaluationRisk]⟩
  | some e =>
    rw [computeEvaluationRisk]
    split
    · exact ⟨35, by norm_num⟩
    · exact isIntQ_min100 (isIntQ_jsRoundQ _)

theorem isIntQ_scoreCategory (vbls : List PartitionedVariable)
    (bms : List BenchmarkRule) {er : ℚ} (h : IsIntQ er) :
    IsIntQ (scoreCategory vbls bms er) := by
  rw [scoreCategory_eq]
  split
  · exact h
  · exact isIntQ_jsRoundQ _

theorem scoreOK_clamp (q : ℚ) : ScoreOK (clamp q) :=
  ⟨isIntQ_clamp q, clamp_nonneg q, clamp_le_100 q⟩

theorem riskLevelFromScore_clamp {q : ℚ} (h : IsIntQ q) :
    riskLevelFromScore (clamp q) = riskLevelFromScore q := by
  obtain ⟨n, rfl⟩ := h
  rw [clamp, jsRoundQ_intCast]
  rcases lt_or_le (n : ℚ) 0 with h0 | h0
  · rw [min_eq_right (by linarith : (n : ℚ) ≤ 100), max_eq_left h0.le]
    simp only [riskLevelFromScore]
    split_ifs <;> first | rfl | (exfalso; linarith)
  · rcases le_or_lt (n : ℚ) 100 with h100 | h100
    · rw [min_eq_right h100, max_eq_right h0]
    · rw [min_eq_left h100.le, max_eq_right (by norm_num : (0:ℚ) ≤ 100)]
      simp only [riskLevelFromScore]
      split_ifs <;> first | rfl | (exfalso; linarith)

theorem resilienceRatingFromScore_clamp {q : ℚ} (h : IsIntQ q) :
    resilienceRatingFromScore (clamp q) = resilienceRatingFromScore q := by
  obtain ⟨n, rfl⟩ := h
  rw [clamp, jsRoundQ_intCast]
  rcases lt_or_le (n : ℚ) 0 with h0 | h0
  · rw [min_eq_right (by linarith : (n : ℚ) ≤ 100), max_eq_left h0.le]
    simp only [resilienceRatingFromScore]
    split_ifs <;> first | rfl | (exfalso; linarith)
  · rcases le_or_lt (n : ℚ) 100 with h100 | h100
    · rw [min_eq_right h100, max_eq_right h0]
    · rw [min_eq_left h100.le, max_eq_right (by norm_num : (0:ℚ) ≤ 100)]
      simp only [resilienceRatingFromScore]
      split_ifs <;> first | rfl | (exfalso; linarith)

/-- C3: for every input (and every jitter draw), all score fields of the
`RiskScoreResult` — overall risk and resilience, per-category risk and
resilience, and the resilience factors — are integers in `[0, 100]`, and
every risk level / resilience rating equals the fixed band function applied
to its corresponding (clamped) score field
(`computeRiskScores` in `risk-scorer.ts`). -/
theorem computeRiskScores_fields_bounded (jitter : VariableCategory → ℚ)
    (pv : PartitionedVariables) (ev : Option EvaluatedData) :
    ScoreOK (computeRiskScores jitter pv ev).overallRiskScore
    ∧ ScoreOK (computeRiskScores jitter pv ev).overallResilienceScore
    ∧ (computeRiskScores jitter pv ev).overallRiskLevel
        = riskLevelFromScore (computeRiskScores jitter pv ev).overallRiskScore
    ∧ (computeRiskScores jitter pv ev).resilienceRating
        = resilienceRatingFromScore
            (computeRiskScores jitter pv ev).overallResilienceScore
    ∧ (∀ cs ∈ (computeRiskScores jitter pv ev).categoryScores,
        ScoreOK cs.riskScore ∧ ScoreOK cs.resilienceScore
        ∧ cs.riskLevel = riskLevelFromScore cs.riskScore)
    ∧ (∀ f ∈ (computeRiskScores jitter pv ev).resilienceFactors,
        ScoreOK f.score) := by
  have hcs : ∀ cs ∈ (computeRiskScores jitter pv ev).categoryScores,
      ScoreOK cs.riskScore ∧ ScoreOK cs.resilienceScore
      ∧ cs.riskLevel = riskLevelFromScore cs.riskScore := by
    intro cs hmem
    simp only [computeRiskScores, List.mem_map] at hmem
    obtain ⟨cat, _, rfl⟩ := hmem
    refine ⟨scoreOK_clamp _, scoreOK_clamp _, ?_⟩
    exact (riskLevelFromScore_clamp (isIntQ_scoreCategory _ _
      (isIntQ_computeEvaluationRisk ev _))).symm
  have hfact : ∀ p : CategoryRiskScore → Bool,
      ScoreOK ((((CATEGORY_LIST.map
        (categoryScoreFor jitter pv ev)).find? p).map
        (·.resilienceScore)).getD 50) := by
    intro p
    cases hf : (CATEGORY_LIST.map (categoryScoreFor jitter pv ev)).find? p with
    | none => exact ⟨⟨50, by norm_num⟩, by norm_num, by norm_num⟩
    | some cs =>
      simpa using (hcs cs (List.mem_of_find?_eq_some hf)).2.1
  refine ⟨scoreOK_clamp _, scoreOK_clamp _,
    (riskLevelFromScore_clamp (isIntQ_jsRoundQ _)).symm,
    (resilienceRatingFromScore_clamp (isIntQ_jsRoundQ _)).symm, hcs, ?_⟩
  intro f hmem
  simp only [computeRiskScores, List.mem_cons, List.not_mem_nil, or_false]
    at hmem
  rcases hmem with rfl | rfl | rfl <;> simpa using hfact _

-- ---------------------------------------------------------------------------
-- C6: risk distribution normalization
-- ---------------------------------------------------------------------------

theorem four_pct_sum (r1 r2 r3 r4 T : ℚ) (hT : T = r1 + r2 + r3 + r4)
    (hpos : 0 < T) :
    |jsRoundQ (r1 / T * 1000) / 10 + jsRoundQ (r2 / T * 1000) / 10
      + jsRoundQ (r3 / T * 1000) / 10 + jsRoundQ (r4 / T * 1000) / 10
      - 100| ≤ 1/2 := by
  have hne : T ≠ 0 := ne_of_gt hpos
  have h1 := abs_jsRoundQ_sub_le (r1 / T * 1000)
  have h2 := abs_jsRoundQ_sub_le (r2 / T * 1000)
  have h3 := abs_jsRoundQ_sub_le (r3 / T * 1000)
  have h4 := abs_jsRoundQ_sub_le (r4 / T * 1000)
  have hx : r1 / T * 1000 + r2 / T * 1000 + r3 / T * 1000 + r4 / T * 1000
      = 1000 := by
    field_simp
    linarith [hT]
  have key : jsRoundQ (r1 / T * 1000) / 10 + jsRoundQ (r2 / T * 1000) / 10
      + jsRoundQ (r3 / T * 1000) / 10 + jsRoundQ (r4 / T * 1000) / 10 - 100
      = ((jsRoundQ (r1 / T * 1000) - r1 / T * 1000)
        + (jsRoundQ (r2 / T * 1000) - r2 / T * 1000)
        + (jsRoundQ (r3 / T * 1000) - r3 / T * 1000)
        + (jsRoundQ (r4 / T * 1000) - r4 / T * 1000)) / 10 := by
    field_simp
    linarith [hx]
  rw [key]
  rw [abs_div, abs_of_pos (by norm_num : (0:ℚ) < 10)]
  have habs : |(jsRoundQ (r1 / T * 1000) - r1 / T * 1000)
      + (jsRoundQ (r2 / T * 1000) - r2 / T * 1000)
      + (jsRoundQ (r3 / T * 1000) - r3 / T * 1000)
      + (jsRoundQ (r4 / T * 1000) - r4 / T * 1000)| ≤ 2 := by
    calc |_ + _ + _ + _|
        ≤ |(jsRoundQ (r1 / T * 1000) - r1 / T * 1000)
            + (jsRoundQ (r2 / T * 1000) - r2 / T * 1000)
            + (jsRoundQ (r3 / T * 1000) - r3 / T * 1000)|
          + |jsRoundQ (r4 / T * 1000) - r4 / T * 1000| := abs_add _ _
      _ ≤ |(jsRoundQ (r1 / T * 1000) - r1 / T * 1000)
            + (jsRoundQ (r2 / T * 1000) - r2 / T * 1000)|
          + |jsRoundQ (r3 / T * 1000) - r3 / T * 1000|
          + |jsRoundQ (r4 / T * 1000) - r4 / T * 1000| := by
          have := abs_add ((jsRoundQ (r1 / T * 1000) - r1 / T * 1000)
            + (jsRoundQ (r2 / T * 1000) - r2 / T * 1000))
            (jsRoundQ (r3 / T * 1000) - r3 / T * 1000)
          linarith
      _ ≤ |jsRoundQ (r1 / T * 1000) - r1 / T * 1000|
          + |jsRoundQ (r2 / T * 1000) - r2 / T * 1000|
          + |jsRoundQ (r3 / T * 1000) - r3 / T * 1000|
          + |jsRoundQ (r4 / T * 1000) - r4 / T * 1000| := by
          have := abs_add (jsRoundQ (r1 / T * 1000) - r1 / T * 1000)
            (jsRoundQ (r2 / T * 1000) - r2 / T * 1000)
          linarith
      _ ≤ 2 := by linarith
  linarith

theorem foldl_add_proj_eq_sum {α : Type} (f : α → ℚ) (l : List α) :
    l.foldl (fun s c => s + f c) 0 = (l.map f).sum := by
  rw [List.sum_eq_foldl, List.foldl_map]

/-- C6: the four risk-distribution percentages are each category's risk score
as a fraction of the summed category risk scores rounded to one decimal
place; they sum to 100 within 1/2 whenever the summed risk is positive, and
are each exactly 25 when the summed risk is zero
(`computeRiskScores` in `risk-scorer.ts`). -/
theorem riskDistribution_sums_to_100 (jitter : VariableCategory → ℚ)
    (pv : PartitionedVariables) (ev : Option EvaluatedData) :
    (0 < ((computeRiskScores jitter pv ev).categoryScores.map
        (·.riskScore)).sum →
      |((computeRiskScores jitter pv ev).riskDistribution.map
          (·.percentage)).sum - 100| ≤ 1/2)
    ∧ (((computeRiskScores jitter pv ev).categoryScores.map
        (·.riskScore)).sum = 0 →
      ∀ d ∈ (computeRiskScores jitter pv ev).riskDistribution,
        d.percentage = 25)
    ∧ (computeRiskScores jitter pv ev).riskDistribution
      = (computeRiskScores jitter pv ev).categoryScores.map fun cs =>
          { label := cs.label
            percentage :=
              if 0 < ((computeRiskScores jitter pv ev).categoryScores.map
                  (·.riskScore)).sum
              then jsRoundQ (cs.riskScore
                / ((computeRiskScores jitter pv ev).categoryScores.map
                    (·.riskScore)).sum * 1000) / 10
              else 25 } := by
  have hfold : (CATEGORY_LIST.map (categoryScoreFor jitter pv ev)).foldl
      (fun s c => s + c.riskScore) 0
      = ((CATEGORY_LIST.map (categoryScoreFor jitter pv ev)).map
          (·.riskScore)).sum :=
    foldl_add_proj_eq_sum _ _
  refine ⟨?_, ?_, ?_⟩
  · intro hpos
    show |(((CATEGORY_LIST.map (categoryScoreFor jitter pv ev)).map fun cs =>
        ({ label := cs.label
           percentage :=
             if (CATEGORY_LIST.map (categoryScoreFor jitter pv ev)).foldl
                  (fun s c => s + c.riskScore) 0 > 0
             then jsRoundQ (cs.riskScore
               / (CATEGORY_LIST.map (categoryScoreFor jitter pv ev)).foldl
                   (fun s c => s + c.riskScore) 0 * 1000) / 10
             else 25 } : LabeledPercentage)).map (·.percentage)).sum - 100|
        ≤ 1/2
    rw [hfold]
    have hpos' : (0:ℚ) < ((CATEGORY_LIST.map
        (categoryScoreFor jitter pv ev)).map (·.riskScore)).sum := hpos
    simp only [CATEGORY_LIST, List.map_cons, List.map_nil, List.sum_cons,
      List.sum_nil, gt_iff_lt] at hpos' ⊢
    rw [if_pos hpos', if_pos hpos', if_pos hpos', if_pos hpos']
    have hfour := four_pct_sum
      (categoryScoreFor jitter pv ev .financial).riskScore
      (categoryScoreFor jitter pv ev .operational).riskScore
      (categoryScoreFor jitter pv ev .geographical).riskScore
      (categoryScoreFor jitter pv ev .ethical).riskScore
      ((categoryScoreFor jitter pv ev .financial).riskScore
        + ((categoryScoreFor jitter pv ev .operational).riskScore
        + ((categoryScoreFor jitter pv ev .geographical).riskScore
        + ((categoryScoreFor jitter pv ev .ethical).riskScore + 0))))
      (by ring) hpos'
    have hshape : ∀ a b c d : ℚ, a + (b + (c + (d + 0))) - 100
        = a + b + c + d - 100 := by intro a b c d; ring
    rw [hshape]
    exact hfour
  · intro hzero
    intro d hd
    show d.percentage = 25
    have hzero' : ((CATEGORY_LIST.map
        (categoryScoreFor jitter pv ev)).map (·.riskScore)).sum = 0 := hzero
    have hmem : d ∈ (CATEGORY_LIST.map (categoryScoreFor jitter pv ev)).map
        fun cs =>
          ({ label := cs.label
             percentage :=
               if (CATEGORY_LIST.map (categoryScoreFor jitter pv ev)).foldl
                    (fun s c => s + c.riskScore) 0 > 0
               then jsRoundQ (cs.riskScore
                 / (CATEGORY_LIST.map (categoryScoreFor jitter pv ev)).foldl
                     (fun s c => s + c.riskScore) 0 * 1000) / 10
               else 25 } : LabeledPercentage) := hd
    rcases List.mem_map.mp hmem with ⟨cs, _, rfl⟩
    have hnotpos : ¬ ((CATEGORY_LIST.map (categoryScoreFor jitter pv ev)).foldl
        (fun s c => s + c.riskScore) 0 > 0) := by
      rw [hfold, hzero']
      exact lt_irrefl 0
    simp only [hnotpos, if_false]
  · show ((CATEGORY_LIST.map (categoryScoreFor jitter pv ev)).map fun cs =>
        ({ label := cs.label
           percentage :=
             if (CATEGORY_LIST.map (categoryScoreFor jitter pv ev)).foldl
                  (fun s c => s + c.riskScore) 0 > 0
             then jsRoundQ (cs.riskScore
               / (CATEGORY_LIST.map (categoryScoreFor jitter pv ev)).foldl
                   (fun s c => s + c.riskScore) 0 * 1000) / 10
             else 25 } : LabeledPercentage))
      = (CATEGORY_LIST.map (categoryScoreFor jitter pv ev)).map fun cs =>
          { label := cs.label
            percentage :=
              if 0 < ((CATEGORY_LIST.map (categoryScoreFor jitter pv ev)).map
                  (·.riskScore)).sum
              then jsRoundQ (cs.riskScore
                / ((CATEGORY_LIST.map (categoryScoreFor jitter pv ev)).map
                    (·.riskScore)).sum * 1000) / 10
              else 25 }
    rw [hfold]

theorem computeEvaluationRisk_none (f : List String) :
    computeEvaluationRisk none f = 50 := rfl

theorem scoreCategory_nil (bms : List BenchmarkRule) (er : ℚ) :
    scoreCategory [] bms er = er := by
  rw [scoreCategory_eq, if_pos]
  simp [benchmarkScores]

/-- Witness for C6 on a concrete run: with no extracted variables and no
evaluation every category scores 50, the summed risk is 200 > 0, and the
percentages sum to 100 within 1/2. -/
theorem riskDistribution_sums_to_100_witness :
    0 < ((computeRiskScores jitA emptyPV none).categoryScores.map
      (·.riskScore)).sum
    ∧ |((computeRiskScores jitA emptyPV none).riskDistribution.map
        (·.percentage)).sum - 100| ≤ 1/2 := by
  have h50 : clamp (50:ℚ) = 50 := by
    rw [show (50:ℚ) = ((50:ℤ):ℚ) by norm_num,
      clamp_intCast_of_mem (by norm_num) (by norm_num)]
  have hcs : ∀ cat, (categoryScoreFor jitA emptyPV none cat).riskScore
      = 50 := by
    intro cat
    show clamp (scoreCategory (emptyPV.get cat) (BENCHMARKS_BY_CATEGORY cat)
      (computeEvaluationRisk none (CATEGORY_EVAL_FILTERS cat))) = 50
    have hget : emptyPV.get cat = [] := by
      cases cat <;> rfl
    rw [hget, scoreCategory_nil, computeEvaluationRisk_none]
    exact h50
  have hsum : ((computeRiskScores jitA emptyPV none).categoryScores.map
      (·.riskScore)).sum = 200 := by
    show ((CATEGORY_LIST.map (categoryScoreFor jitA emptyPV none)).map
      (·.riskScore)).sum = 200
    simp only [CATEGORY_LIST, List.map_cons, List.map_nil, hcs,
      List.sum_cons, List.sum_nil]
    norm_num
  constructor
  · rw [hsum]
    norm_num
  · exact (riskDistribution_sums_to_100 jitA emptyPV none).1
      (by rw [hsum]; norm_num)

-- ---------------------------------------------------------------------------
-- C10: jitter only affects resilience, and only within ±4
-- ---------------------------------------------------------------------------

theorem clamp01_lipschitz (a b : ℚ) :
    |max 0 (min 100 a) - max 0 (min 100 b)| ≤ |a - b| := by
  have ha1 : a - b ≤ |a - b| := le_abs_self _
  have ha2 : b - a ≤ |a - b| := by
    rw [abs_sub_comm]
    exact le_abs_self _
  rw [abs_le]
  constructor <;> simp only [max_def, min_def] <;> split_ifs <;> linarith

theorem window_sub (x : ℚ) :
    max 0 (min 100 (100 - max 0 (min 100 x))) = max 0 (min 100 (100 - x)) := by
  simp only [max_def, min_def]
  split_ifs <;> linarith

theorem int_cast_abs_le_four {z : ℤ} (h : |(z : ℚ)| ≤ 9/2) :
    |(z : ℚ)| ≤ 4 := by
  rw [← Int.cast_abs] at h ⊢
  have h5 : |z| < 5 := by
    exact_mod_cast lt_of_le_of_lt h (by norm_num : (9/2 : ℚ) < 5)
  have h4 : |z| ≤ 4 := by omega
  exact_mod_cast h4

theorem resilience_jitter_bound (n : ℤ) (j : ℚ) (hj : |j| ≤ 4) :
    |clamp (max 0 (min 100 (100 - (n : ℚ) + j)))
      - max 0 (min 100 (100 - clamp (n : ℚ)))| ≤ 4 := by
  have hc : clamp (n : ℚ) = max 0 (min 100 (n : ℚ)) := by
    rw [clamp, jsRoundQ_intCast]
  rw [hc, window_sub]
  have hlip := clamp01_lipschitz (100 - (n : ℚ) + j) (100 - (n : ℚ))
  have hlip' : |max 0 (min 100 (100 - (n : ℚ) + j))
      - max 0 (min 100 (100 - (n : ℚ)))| ≤ 4 := by
    calc |max 0 (min 100 (100 - (n : ℚ) + j))
        - max 0 (min 100 (100 - (n : ℚ)))|
        ≤ |100 - (n : ℚ) + j - (100 - (n : ℚ))| := hlip
      _ = |j| := by ring_nf
      _ ≤ 4 := hj
  set v := max 0 (min 100 (100 - (n : ℚ) + j)) with hv
  have hv0 : 0 ≤ v := le_max_left _ _
  have hv100 : v ≤ 100 := max_le (by norm_num) (min_le_left _ _)
  have hk1 : (jsRound v : ℚ) ≤ v + 1/2 := by
    rw [jsRound_eq_floor]
    exact Int.floor_le _
  have hk2 : v + 1/2 - 1 < (jsRound v : ℚ) := by
    rw [jsRound_eq_floor]
    exact Int.sub_one_lt_floor _
  have hk0 : 0 ≤ jsRound v := by
    have h' : (-1 : ℚ) < (jsRound v : ℚ) := by linarith
    have h'' : (-1 : ℤ) < jsRound v := by exact_mod_cast h'
    omega
  have hk100 : jsRound v ≤ 100 := by
    have h' : (jsRound v : ℚ) < 101 := by linarith
    have h'' : jsRound v < (101 : ℤ) := by exact_mod_cast h'
    omega
  have hclampv : clamp v = (jsRound v : ℚ) := by
    rw [clamp, jsRoundQ, min_eq_right (by exact_mod_cast hk100),
      max_eq_right (by exact_mod_cast hk0)]
  rw [hclampv]
  have h1 : |(jsRound v : ℚ) - v| ≤ 1/2 := by
    rw [abs_le]
    constructor <;> linarith
  have hdist : |(jsRound v : ℚ) - max 0 (min 100 (100 - (n : ℚ)))|
      ≤ 9/2 := by
    calc |(jsRound v : ℚ) - max 0 (min 100 (100 - (n : ℚ)))|
        ≤ |(jsRound v : ℚ) - v| + |v - max 0 (min 100 (100 - (n : ℚ)))| :=
          abs_sub_le _ v _
      _ ≤ 9/2 := by linarith [hlip']
  have hint : |((jsRound v - max 0 (min 100 (100 - n)) : ℤ) : ℚ)| ≤ 9/2 := by
    push_cast
    exact hdist
  have hfin := int_cast_abs_le_four hint
  calc |(jsRound v : ℚ) - max 0 (min 100 (100 - (n : ℚ)))|
      = |((jsRound v - max 0 (min 100 (100 - n)) : ℤ) : ℚ)| := by
        push_cast
        rfl
    _ ≤ 4 := hfin

/-- C10: two runs of `computeRiskScores` on the same inputs that differ only
in the jitter draws agree on all non-resilience outputs (category risk
scores and levels, overall risk score and level, risk distribution); and
each category's resilience score lies within ±4 of 100 minus that
category's (clamped) risk score (`computeRiskScores` and `randomJitter` in
`risk-scorer.ts`). -/
theorem computeRiskScores_jitter_hyperproperty
    (j₁ j₂ : VariableCategory → ℚ) (pv : PartitionedVariables)
    (ev : Option EvaluatedData) (h₁ : jitterBounded j₁)
    (h₂ : jitterBounded j₂) :
    (computeRiskScores j₁ pv ev).overallRiskScore
      = (computeRiskScores j₂ pv ev).overallRiskScore
    ∧ (computeRiskScores j₁ pv ev).overallRiskLevel
      = (computeRiskScores j₂ pv ev).overallRiskLevel
    ∧ (computeRiskScores j₁ pv ev).categoryScores.map
        (fun cs => (cs.category, cs.riskScore, cs.riskLevel))
      = (computeRiskScores j₂ pv ev).categoryScores.map
        (fun cs => (cs.category, cs.riskScore, cs.riskLevel))
    ∧ (computeRiskScores j₁ pv ev).riskDistribution
      = (computeRiskScores j₂ pv ev).riskDistribution
    ∧ (∀ cs ∈ (computeRiskScores j₁ pv ev).categoryScores,
        |cs.resilienceScore - max 0 (min 100 (100 - cs.riskScore))| ≤ 4)
    ∧ (∀ cs ∈ (computeRiskScores j₂ pv ev).categoryScores,
        |cs.resilienceScore - max 0 (min 100 (100 - cs.riskScore))| ≤ 4) := by
  have hbound : ∀ (j : VariableCategory → ℚ), jitterBounded j →
      ∀ cs ∈ (computeRiskScores j pv ev).categoryScores,
        |cs.resilienceScore - max 0 (min 100 (100 - cs.riskScore))| ≤ 4 := by
    intro j hj cs hmem
    have hmem' : cs ∈ CATEGORY_LIST.map (categoryScoreFor j pv ev) := hmem
    rcases List.mem_map.mp hmem' with ⟨cat, _, rfl⟩
    obtain ⟨n, hn⟩ := isIntQ_scoreCategory (pv.get cat)
      (BENCHMARKS_BY_CATEGORY cat)
      (isIntQ_computeEvaluationRisk ev (CATEGORY_EVAL_FILTERS cat))
    show |clamp (max 0 (min 100 (100 - scoreCategory (pv.get cat)
        (BENCHMARKS_BY_CATEGORY cat) (computeEvaluationRisk ev
          (CATEGORY_EVAL_FILTERS cat)) + j cat)))
      - max 0 (min 100 (100 - clamp (scoreCategory (pv.get cat)
        (BENCHMARKS_BY_CATEGORY cat) (computeEvaluationRisk ev
          (CATEGORY_EVAL_FILTERS cat)))))| ≤ 4
    rw [hn]
    exact resilience_jitter_bound n (j cat) (hj cat)
  have hrs : ∀ cat, (categoryScoreFor j₁ pv ev cat).riskScore
      = (categoryScoreFor j₂ pv ev cat).riskScore := fun _ => rfl
  have hcat : ∀ cat, (categoryScoreFor j₁ pv ev cat).category
      = (categoryScoreFor j₂ pv ev cat).category := fun _ => rfl
  have hlab : ∀ cat, (categoryScoreFor j₁ pv ev cat).label
      = (categoryScoreFor j₂ pv ev cat).label := fun _ => rfl
  have hlev : ∀ cat, (categoryScoreFor j₁ pv ev cat).riskLevel
      = (categoryScoreFor j₂ pv ev cat).riskLevel := fun _ => rfl
  have hover : (computeRiskScores j₁ pv ev).overallRiskScore
      = (computeRiskScores j₂ pv ev).overallRiskScore := by
    show clamp (jsRoundQ ((CATEGORY_LIST.map
        (categoryScoreFor j₁ pv ev)).foldl
        (fun sum cs => sum + cs.riskScore * CATEGORY_WEIGHT cs.category) 0))
      = clamp (jsRoundQ ((CATEGORY_LIST.map
        (categoryScoreFor j₂ pv ev)).foldl
        (fun sum cs => sum + cs.riskScore * CATEGORY_WEIGHT cs.category) 0))
    simp only [CATEGORY_LIST, List.map_cons, List.map_nil, List.foldl_cons,
      List.foldl_nil, hrs, hcat]
  have hoverlev : (computeRiskScores j₁ pv ev).overallRiskLevel
      = (computeRiskScores j₂ pv ev).overallRiskLevel := by
    show riskLevelFromScore (jsRoundQ ((CATEGORY_LIST.map
        (categoryScoreFor j₁ pv ev)).foldl
        (fun sum cs => sum + cs.riskScore * CATEGORY_WEIGHT cs.category) 0))
      = riskLevelFromScore (jsRoundQ ((CATEGORY_LIST.map
        (categoryScoreFor j₂ pv ev)).foldl
        (fun sum cs => sum + cs.riskScore * CATEGORY_WEIGHT cs.category) 0))
    simp only [CATEGORY_LIST, List.map_cons, List.map_nil, List.foldl_cons,
      List.foldl_nil, hrs, hcat]
  have htriple : (computeRiskScores j₁ pv ev).categoryScores.map
      (fun cs => (cs.category, cs.riskScore, cs.riskLevel))
      = (computeRiskScores j₂ pv ev).categoryScores.map
      (fun cs => (cs.category, cs.riskScore, cs.riskLevel)) := by
    show (CATEGORY_LIST.map (categoryScoreFor j₁ pv ev)).map
        (fun cs => (cs.category, cs.riskScore, cs.riskLevel))
      = (CATEGORY_LIST.map (categoryScoreFor j₂ pv ev)).map
        (fun cs => (cs.category, cs.riskScore, cs.riskLevel))
    simp only [CATEGORY_LIST, List.map_cons, List.map_nil, hrs, hcat, hlev]
  have hdisteq : (computeRiskScores j₁ pv ev).riskDistribution
      = (computeRiskScores j₂ pv ev).riskDistribution := by
    show ((CATEGORY_LIST.map (categoryScoreFor j₁ pv ev)).map fun cs =>
        ({ label := cs.label
           percentage :=
             if (CATEGORY_LIST.map (categoryScoreFor j₁ pv ev)).foldl
                  (fun s c => s + c.riskScore) 0 > 0
             then jsRoundQ (cs.riskScore
               / (CATEGORY_LIST.map (categoryScoreFor j₁ pv ev)).foldl
                   (fun s c => s + c.riskScore) 0 * 1000) / 10
             else 25 } : LabeledPercentage))
      = (CATEGORY_LIST.map (categoryScoreFor j₂ pv ev)).map fun cs =>
        ({ label := cs.label
           percentage :=
             if (CATEGORY_LIST.map (categoryScoreFor j₂ pv ev)).foldl
                  (fun s c => s + c.riskScore) 0 > 0
             then jsRoundQ (cs.riskScore
               / (CATEGORY_LIST.map (categoryScoreFor j₂ pv ev)).foldl
                   (fun s c => s + c.riskScore) 0 * 1000) / 10
             else 25 } : LabeledPercentage)
    simp only [CATEGORY_LIST, List.map_cons, List.map_nil, List.foldl_cons,
      List.foldl_nil, hrs, hcat, hlab]
  exact ⟨hover, hoverlev, htriple, hdisteq, hbound j₁ h₁, hbound j₂ h₂⟩

/-- Witness for C10 at two concrete bounded jitter draws. -/
theorem computeRiskScores_jitter_hyperproperty_witness :
    jitterBounded jitA ∧ jitterBounded jitB
    ∧ (computeRiskScores jitA emptyPV none).overallRiskScore
      = (computeRiskScores jitB emptyPV none).overallRiskScore := by
  have hA : jitterBounded jitA := by
    intro c
    show |(7/2 : ℚ)| ≤ 4
    rw [abs_of_nonneg (by norm_num)]
    norm_num
  have hB : jitterBounded jitB := by
    intro c
    show |(-2 : ℚ)| ≤ 4
    rw [abs_of_nonpos (by norm_num)]
    norm_num
  exact ⟨hA, hB,
    (computeRiskScores_jitter_hyperproperty jitA jitB emptyPV none hA hB).1⟩

-- ---------------------------------------------------------------------------
-- C7: news merging
-- ---------------------------------------------------------------------------

theorem dedup_foldl_eq_dedupSeen (articles : List NewsArticle)
    (seen : List String) (out : List NewsArticle) :
    articles.foldl
      (fun (acc2 : List String × List NewsArticle) article =>
        if acc2.1.contains article.url then acc2
        else (acc2.1 ++ [article.url], acc2.2 ++ [article]))
      (seen, out)
    = (seen ++ (dedupSeen seen articles).map (·.url),
       out ++ dedupSeen seen articles) := by
  induction articles generalizing seen out with
  | nil => simp [dedupSeen]
  | cons a rest ih =>
    simp only [List.foldl_cons, dedupSeen]
    by_cases h : seen.contains a.url
    · rw [if_pos h, if_pos h, ih]
    · rw [if_neg h, if_neg h, ih]
      simp [List.append_assoc]

theorem dedupSeen_eq_spec (articles : List NewsArticle) :
    ∀ seen : List String,
      dedupSeen seen articles
        = dedupByUrlSpec (articles.filter fun a => !(seen.contains a.url)) := by
  induction articles with
  | nil => intro seen; simp [dedupSeen, dedupByUrlSpec]
  | cons a rest ih =>
    intro seen
    by_cases h : seen.contains a.url
    · rw [dedupSeen, if_pos h,
        List.filter_cons_of_neg (by simpa using h), ih]
    · rw [dedupSeen, if_neg h,
        List.filter_cons_of_pos (by simpa using h),
        dedupByUrlSpec, ih]
      congr 1
      congr 1
      rw [List.filter_filter]
      apply List.filter_congr
      intro b _
      simp only [List.elem_eq_mem, List.mem_append, List.mem_singleton,
        Bool.decide_or, Bool.not_or, decide_not]
      cases h2 : (b.url == a.url) <;>
        simp [h2, Bool.and_comm]

theorem dedupSeen_append (as bs : List NewsArticle) :
    ∀ seen : List String,
      dedupSeen seen (as ++ bs)
        = dedupSeen seen as
          ++ dedupSeen (seen ++ (dedupSeen seen as).map (·.url)) bs := by
  induction as with
  | nil => intro seen; simp [dedupSeen]
  | cons a rest ih =>
    intro seen
    rw [List.cons_append, dedupSeen, dedupSeen]
    by_cases h : seen.contains a.url
    · rw [if_pos h, if_pos h, ih]
    · rw [if_neg h, if_neg h, ih]
      simp [List.append_assoc]

theorem successfulArticles_cons (r : DataSourceResult (List NewsArticle))
    (rs : List (DataSourceResult (List NewsArticle))) :
    successfulArticles (r :: rs)
      = (if r.success = true ∧ r.data ≠ none then r.data.getD [] else [])
        ++ successfulArticles rs := by
  by_cases h : r.success = true ∧ r.data ≠ none
  · rw [successfulArticles, List.filter_cons_of_pos (by simpa using h),
      List.foldr_cons, if_pos h]
    rfl
  · rw [successfulArticles, List.filter_cons_of_neg (by simpa using h),
      if_neg h, List.nil_append]
    rfl

theorem mergeNewsLoop_aux (results : List (DataSourceResult (List NewsArticle))) :
    ∀ (seen : List String) (out : List NewsArticle),
      results.foldl
        (fun (acc : List String × List NewsArticle) result =>
          if result.success = false ∨ result.data = none then acc
          else (result.data.getD []).foldl
            (fun (acc2 : List String × List NewsArticle) article =>
              if acc2.1.contains article.url then acc2
              else (acc2.1 ++ [article.url], acc2.2 ++ [article]))
            acc)
        (seen, out)
      = (seen ++ (dedupSeen seen (successfulArticles results)).map (·.url),
         out ++ dedupSeen seen (successfulArticles results)) := by
  induction results with
  | nil =>
    intro seen out
    simp [successfulArticles, dedupSeen]
  | cons r rs ih =>
    intro seen out
    rw [List.foldl_cons, successfulArticles_cons]
    by_cases h : r.success = false ∨ r.data = none
    · have hcond : ¬ (r.success = true ∧ r.data ≠ none) := by
        rcases h with h | h
        · rintro ⟨h1, _⟩
          rw [h1] at h
          simp at h
        · rintro ⟨_, h2⟩
          exact h2 h
      rw [if_pos h, if_neg hcond, List.nil_append, ih]
    · push_neg at h
      have hsucc : r.success = true := by
        cases hs : r.success
        · exact absurd hs h.1
        · rfl
      have hcond : r.success = true ∧ r.data ≠ none := ⟨hsucc, h.2⟩
      rw [if_neg (by push_neg; exact h), if_pos hcond,
        dedup_foldl_eq_dedupSeen, ih, dedupSeen_append]
      simp [List.append_assoc, List.map_append]

theorem mergeNewsLoop_eq_spec
    (results : List (DataSourceResult (List NewsArticle))) :
    mergeNewsLoop results = dedupByUrlSpec (successfulArticles results) := by
  have haux := mergeNewsLoop_aux results [] []
  have h2 : mergeNewsLoop results
      = ([] : List NewsArticle) ++ dedupSeen [] (successfulArticles results) := by
    show (results.foldl
        (fun (acc : List String × List NewsArticle) result =>
          if result.success = false ∨ result.data = none then acc
          else (result.data.getD []).foldl
            (fun (acc2 : List String × List NewsArticle) article =>
              if acc2.1.contains article.url then acc2
              else (acc2.1 ++ [article.url], acc2.2 ++ [article]))
            acc)
        ([], [])).2 = _
    rw [haux]
  rw [h2, List.nil_append, dedupSeen_eq_spec]
  congr 1
  apply List.filter_eq_self.mpr
  intro a _
  simp

/-- C7 (amended): the merged news result carries the URL-deduplicated,
first-occurrence-wins union of the successful constituent queries' articles;
it is a success exactly when that union is non-empty, and otherwise a
failure surfacing the first truthy error among the constituent results (or
`No news found`) (`mergeNewsResults` in the aggregator module). -/
theorem mergeNewsResults_spec
    (results : List (DataSourceResult (List NewsArticle))) (t : String) :
    mergeNewsResults results t =
      if dedupByUrlSpec (successfulArticles results) = [] then
        sourceError "newsapi:merged" (firstErrorSpec results) t
      else
        { source := "newsapi:merged", success := true
          data := some (dedupByUrlSpec (successfulArticles results))
          error := none, fetchedAt := t } := by
  show (if (mergeNewsLoop results).length > 0 then
      ({ source := "newsapi:merged", success := true
         data := some (mergeNewsLoop results), error := none
         fetchedAt := t } : DataSourceResult (List NewsArticle))
    else sourceError "newsapi:merged"
      ((((results.find? fun r => errTruthy r.error).bind (·.error)).getD
        "No news found")) t) = _
  rw [mergeNewsLoop_eq_spec]
  by_cases hd : dedupByUrlSpec (successfulArticles results) = []
  · rw [hd, if_neg (by simp), if_pos rfl]
    rfl
  · rw [if_pos (by simpa using List.length_pos.mpr hd), if_neg hd]

/-- Counterexample for C7 as stated: both constituent news queries succeed
(with zero articles), yet the merged result is a failure — "when at least
one constituent query succeeded, the merged result is a success" is false. -/
theorem mergeNews_success_claim_cex :
    (sourceSuccess "newsapi:supply-chain" ([] : List NewsArticle) "t0").success
      = true
    ∧ (sourceSuccess "newsapi:litigation" ([] : List NewsArticle) "t0").success
      = true
    ∧ (mergeNewsResults
        [sourceSuccess "newsapi:supply-chain" ([] : List NewsArticle) "t0",
         sourceSuccess "newsapi:litigation" ([] : List NewsArticle) "t0"]
        "t0").success = false := ⟨rfl, rfl, rfl⟩

-- ---------------------------------------------------------------------------
-- C5: aggregation isolation and per-entry success flags
-- ---------------------------------------------------------------------------

/-- Counterexample for C5 as stated: an outcome assignment in which every
provider fetch succeeds — in particular, both news queries succeed, with
zero articles — yet the merged `news` entry of the aggregate has
`success = false`, so "exactly the failed providers' entries have
success:false … every other entry has success:true" fails. -/
theorem aggregate_success_flags_cex :
    (fetchSupplyChainNews oAllOk.supplyChainNews "t0").success = true
    ∧ (fetchLitigationNews oAllOk.litigationNews "t0").success = true
    ∧ (aggregateCompanyData cid0 oAllOk "t0").profile.success = true
    ∧ (aggregateCompanyData cid0 oAllOk "t0").news.success = false
    ∧ (aggregateCompanyData cid0 oAllOk "t0").news.error
        = some "No news found" :=
  ⟨rfl, rfl, rfl, rfl, rfl⟩

/-- C5 (amended): `aggregateCompanyData` is a total function of the provider
outcomes — no outcome aborts it — and each entry's success flag is an exact
function of its own provider's outcome: a thrown call always yields
`success = false` with a non-null error, an `ok` outcome yields
`success = true` except where the wrapper detects an invalid payload (empty
profile/quote array, unresolvable CIK, non-`Success` EPA message); the
merged news entry succeeds exactly when the non-thrown news queries
contribute at least one article.  Every failed entry carries a non-null
error (`aggregateCompanyData` and the `data-sources/*` wrappers). -/
theorem aggregate_success_flags_spec (cid : CompanyIdentifier)
    (o : ProviderOutcomes) (t : String) :
    (aggregateCompanyData cid o t).profile.success
      = profileOutcomeSucceeds o.profile
    ∧ (aggregateCompanyData cid o t).stockQuote.success
      = quoteOutcomeSucceeds o.stockQuote
    ∧ (aggregateCompanyData cid o t).historicalPrices.success
      = simpleOutcomeSucceeds o.historicalPrices
    ∧ (aggregateCompanyData cid o t).incomeStatements.success
      = simpleOutcomeSucceeds o.incomeStatements
    ∧ (aggregateCompanyData cid o t).balanceSheets.success
      = simpleOutcomeSucceeds o.balanceSheets
    ∧ (aggregateCompanyData cid o t).cashFlows.success
      = simpleOutcomeSucceeds o.cashFlows
    ∧ (aggregateCompanyData cid o t).financialHealth.success
      = simpleOutcomeSucceeds o.financialHealth
    ∧ (aggregateCompanyData cid o t).secFilings.success
      = filingsOutcomeSucceeds o.secFilings
    ∧ (aggregateCompanyData cid o t).macroIndicators.success
      = simpleOutcomeSucceeds o.macroIndicators
    ∧ (aggregateCompanyData cid o t).environmentalViolations.success
      = epaOutcomeSucceeds o.environmentalViolations
    ∧ (aggregateCompanyData cid o t).oshaInspections.success
      = simpleOutcomeSucceeds o.oshaInspections
    ∧ (aggregateCompanyData cid o t).webResearch.success
      = simpleOutcomeSucceeds o.webResearch
    ∧ (aggregateCompanyData cid o t).news.success
      = !(dedupByUrlSpec (newsOutcomesArticles o.supplyChainNews
          o.litigationNews)).isEmpty
    ∧ entriesErrorConsistent (aggregateCompanyData cid o t) = true := by
  have hnewsArticles : successfulArticles
      [fetchSupplyChainNews o.supplyChainNews t,
       fetchLitigationNews o.litigationNews t]
      = newsOutcomesArticles o.supplyChainNews o.litigationNews := by
    cases o.supplyChainNews <;> cases o.litigationNews <;>
      simp [successfulArticles, fetchSupplyChainNews, fetchLitigationNews,
        sourceSuccess, sourceError, newsOutcomesArticles]
  have hnews : (aggregateCompanyData cid o t).news.success
      = !(dedupByUrlSpec (newsOutcomesArticles o.supplyChainNews
          o.litigationNews)).isEmpty := by
    show (mergeNewsResults [fetchSupplyChainNews o.supplyChainNews t,
      fetchLitigationNews o.litigationNews t] t).success = _
    rw [mergeNewsResults_spec, hnewsArticles]
    by_cases hd : dedupByUrlSpec (newsOutcomesArticles o.supplyChainNews
        o.litigationNews) = []
    · rw [if_pos hd, hd]
      rfl
    · rw [if_neg hd]
      cases hed : dedupByUrlSpec (newsOutcomesArticles o.supplyChainNews
          o.litigationNews) with
      | nil => exact absurd hed hd
      | cons x xs => rfl
  have hnewsErr : ((aggregateCompanyData cid o t).news.success
      || (aggregateCompanyData cid o t).news.error.isSome) = true := by
    show ((mergeNewsResults [fetchSupplyChainNews o.supplyChainNews t,
        fetchLitigationNews o.litigationNews t] t).success
      || (mergeNewsResults [fetchSupplyChainNews o.supplyChainNews t,
        fetchLitigationNews o.litigationNews t] t).error.isSome) = true
    rw [mergeNewsResults_spec]
    by_cases hd : dedupByUrlSpec (successfulArticles
        [fetchSupplyChainNews o.supplyChainNews t,
         fetchLitigationNews o.litigationNews t]) = []
    · rw [if_pos hd]
      rfl
    · rw [if_neg hd]
      rfl
  refine ⟨?_, ?_, ?_, ?_, ?_, ?_, ?_, ?_, ?_, ?_, ?_, ?_, hnews, ?_⟩
  · rcases hp : o.profile with msg | raw
    · show (fetchCompanyProfile cid.ticker o.profile t).success = _
      rw [hp]
      rfl
    · show (fetchCompanyProfile cid.ticker o.profile t).success = _
      rw [hp]
      cases raw <;> rfl
  · rcases hp : o.stockQuote with msg | raw
    · show (fetchStockQuote cid.ticker o.stockQuote t).success = _
      rw [hp]
      rfl
    · show (fetchStockQuote cid.ticker o.stockQuote t).success = _
      rw [hp]
      cases raw <;> rfl
  · show (fetchHistoricalPrices o.historicalPrices t).success = _
    rcases hp : o.historicalPrices with msg | raw
    · rfl
    · cases raw <;> rfl
  · show (fetchIncomeStatements o.incomeStatements t).success = _
    rcases hp : o.incomeStatements with msg | raw <;> rfl
  · show (fetchBalanceSheets o.balanceSheets t).success = _
    rcases hp : o.balanceSheets with msg | raw <;> rfl
  · show (fetchCashFlows o.cashFlows t).success = _
    rcases hp : o.cashFlows with msg | raw <;> rfl
  · show (fetchFinancialHealth o.financialHealth t).success = _
    rcases hp : o.financialHealth with msg | raw <;> rfl
  · show (fetchSecFilings cid.ticker o.secFilings t).success = _
    rcases hp : o.secFilings with msg | raw
    · rfl
    · cases raw <;> rfl
  · show (fetchSupplyChainIndicators o.macroIndicators t).success = _
    rcases hp : o.macroIndicators with msg | raw <;> rfl
  · show (fetchEnvironmentalViolations o.environmentalViolations t).success = _
    rcases hp : o.environmentalViolations with msg | raw
    · rfl
    · cases raw <;> rfl
  · show (fetchOshaInspections o.oshaInspections t).success = _
    rcases hp : o.oshaInspections with msg | raw <;> rfl
  · show (researchCompanySupplyChain o.webResearch t).success = _
    rcases hp : o.webResearch with msg | raw <;> rfl
  · simp only [entriesErrorConsistent, List.all_cons, List.all_nil,
      Bool.and_eq_true, Bool.and_true]
    refine ⟨?_, ?_, ?_, ?_, ?_, ?_, ?_, ?_, hnewsErr, ?_, ?_, ?_, ?_⟩
    · show ((fetchCompanyProfile cid.ticker o.profile t).success
        || (fetchCompanyProfile cid.ticker o.profile t).error.isSome) = true
      rcases o.profile with msg | raw
      · rfl
      · cases raw <;> rfl
    · show ((fetchStockQuote cid.ticker o.stockQuote t).success
        || (fetchStockQuote cid.ticker o.stockQuote t).error.isSome) = true
      rcases o.stockQuote with msg | raw
      · rfl
      · cases raw <;> rfl
    · show ((fetchHistoricalPrices o.historicalPrices t).success
        || (fetchHistoricalPrices o.historicalPrices t).error.isSome) = true
      rcases o.historicalPrices with msg | raw
      · rfl
      · cases raw <;> rfl
    · show ((fetchIncomeStatements o.incomeStatements t).success
        || (fetchIncomeStatements o.incomeStatements t).error.isSome) = true
      rcases o.incomeStatements with msg | raw <;> rfl
    · show ((fetchBalanceSheets o.balanceSheets t).success
        || (fetchBalanceSheets o.balanceSheets t).error.isSome) = true
      rcases o.balanceSheets with msg | raw <;> rfl
    · show ((fetchCashFlows o.cashFlows t).success
        || (fetchCashFlows o.cashFlows t).error.isSome) = true
      rcases o.cashFlows with msg | raw <;> rfl
    · show ((fetchFinancialHealth o.financialHealth t).success
        || (fetchFinancialHealth o.financialHealth t).error.isSome) = true
      rcases o.financialHealth with msg | raw <;> rfl
    · show ((fetchSecFilings cid.ticker o.secFilings t).success
        || (fetchSecFilings cid.ticker o.secFilings t).error.isSome) = true
      rcases o.secFilings with msg | raw
      · rfl
      · cases raw <;> rfl
    · show ((fetchSupplyChainIndicators o.macroIndicators t).success
        || (fetchSupplyChainIndicators o.macroIndicators t).error.isSome)
        = true
      rcases o.macroIndicators with msg | raw <;> rfl
    · show ((fetchEnvironmentalViolations o.environmentalViolations t).success
        || (fetchEnvironmentalViolations
            o.environmentalViolations t).error.isSome) = true
      rcases o.environmentalViolations with msg | raw
      · rfl
      · cases raw <;> rfl
    · show ((fetchOshaInspections o.oshaInspections t).success
        || (fetchOshaInspections o.oshaInspections t).error.isSome) = true
      rcases o.oshaInspections with msg | raw <;> rfl
    · show ((researchCompanySupplyChain o.webResearch t).success
        || (researchCompanySupplyChain o.webResearch t).error.isSome) = true
      rcases o.webResearch with msg | raw <;> rfl

-- ---------------------------------------------------------------------------
-- C9: fallback dependency skeleton
-- ---------------------------------------------------------------------------

/-- Counterexample for C9 as stated: when the company profile is unavailable
the fallback country defaults to `"US"`, and the three tier-2 suppliers span
three distinct countries (`"US"`, `"United States"`, `"Germany"`), not two. -/
theorem fallbackDependencies_two_countries_cex :
    ((buildFallbackDependencies "vnd_1"
        (aggregateCompanyData cid0 oNoProfile "t0")).tier2_suppliers.map
      (·.country))
      = ["US", "United States", "Germany"]
    ∧ (((buildFallbackDependencies "vnd_1"
        (aggregateCompanyData cid0 oNoProfile "t0")).tier2_suppliers.map
      (·.country)).toFinset.card = 3) := by
  refine ⟨rfl, ?_⟩
  rfl

/-- C9 (amended): `buildFallbackDependencies` is deterministic (it takes no
randomness) and yields a static skeleton of exactly 3 tier-2 suppliers
seeded from the profile's sector and country; the tier-2 suppliers' countries
are the company's country (default `"US"`), `"United States"`, and
`"Germany"` — 2 distinct countries exactly when the company's country is
`"United States"` or `"Germany"`, and 3 otherwise
(`buildFallbackDependencies` in `vendor-analyzer.ts`). -/
theorem buildFallbackDependencies_spec (vendorId : String)
    (aggregated : AggregatedCompanyData) :
    (buildFallbackDependencies vendorId aggregated).tier2_suppliers.length = 3
    ∧ ((buildFallbackDependencies vendorId aggregated).tier2_suppliers.map
        (·.country))
      = [(aggregated.profile.data.map (·.country)).getD "US",
         "United States", "Germany"]
    ∧ ((buildFallbackDependencies vendorId aggregated).tier2_suppliers.map
        (·.name))
      = [(aggregated.profile.data.map (·.sector)).getD "Unknown"
           ++ " Component Supplier A",
         (aggregated.profile.data.map (·.sector)).getD "Unknown"
           ++ " Service Provider B",
         "Logistics Partner C"]
    ∧ (((buildFallbackDependencies vendorId aggregated).tier2_suppliers.map
        (·.country)).toFinset.card
      = if (aggregated.profile.data.map (·.country)).getD "US"
            = "United States"
          ∨ (aggregated.profile.data.map (·.country)).getD "US" = "Germany"
        then 2 else 3) := by
  refine ⟨rfl, rfl, rfl, ?_⟩
  set c := (aggregated.profile.data.map (·.country)).getD "US" with hc
  show ([c, "United States", "Germany"].toFinset.card = _)
  by_cases h1 : c = "United States"
  · rw [if_pos (Or.inl h1), h1]
    rfl
  · by_cases h2 : c = "Germany"
    · rw [if_pos (Or.inr h2), h2]
      rfl
    · rw [if_neg (by rintro (h | h) <;> [exact h1 h; exact h2 h])]
      have : ([c, "United States", "Germany"] : List String).toFinset
          = insert c (insert "United States" {"Germany"}) := by
        simp [List.toFinset_cons]
      rw [this, Finset.card_insert_of_not_mem (by simp [h1, h2])]
      rfl

-- ---------------------------------------------------------------------------
-- C4: terminal vendor-store states are final
-- ---------------------------------------------------------------------------

theorem lookupEntry_updateEntry {R : Type}
    (entries : List (String × VendorEntry R)) (id' : String)
    (f : VendorEntry R → VendorEntry R) (id : String) :
    lookupEntry (updateEntry entries id' f) id
      = if id = id' then (lookupEntry entries id).map f
        else lookupEntry entries id := by
  induction entries with
  | nil => by_cases h : id = id' <;> simp [updateEntry, lookupEntry, h]
  | cons p rest ih =>
    obtain ⟨k, v⟩ := p
    by_cases hk : k = id'
    · subst hk
      have hcons : updateEntry ((k, v) :: rest) k f
          = (k, f v) :: updateEntry rest k f := by
        simp [updateEntry]
      rw [hcons]
      by_cases hid : id = k
      · rw [lookupEntry, if_pos hid, if_pos hid, lookupEntry, if_pos hid]
        rfl
      · have hlhs : lookupEntry ((k, f v) :: updateEntry rest k f) id
            = lookupEntry (updateEntry rest k f) id := by
          rw [lookupEntry, if_neg hid]
        have hrhs : lookupEntry ((k, v) :: rest) id = lookupEntry rest id := by
          rw [lookupEntry, if_neg hid]
        rw [hlhs, hrhs, ih]
    · have hcons : updateEntry ((k, v) :: rest) id' f
          = (k, v) :: updateEntry rest id' f := by
        simp [updateEntry, hk]
      rw [hcons]
      by_cases hid : id = k
      · subst hid
        rw [lookupEntry, if_pos rfl, if_neg hk, lookupEntry, if_pos rfl]
      · have hlhs : lookupEntry ((k, v) :: updateEntry rest id' f) id
            = lookupEntry (updateEntry rest id' f) id := by
          rw [lookupEntry, if_neg hid]
        have hrhs : lookupEntry ((k, v) :: rest) id = lookupEntry rest id := by
          rw [lookupEntry, if_neg hid]
        rw [hlhs, hrhs, ih]

theorem storeInv_initial (R : Type) : StoreInv (initialStore R) := by
  refine ⟨List.nodup_nil, ?_, ?_⟩
  · intro id h
    exact absurd h (List.not_mem_nil id)
  · intro id e h _
    exact absurd h (by simp [initialStore, StoreState.lookup, lookupEntry])

theorem trigger_lookup {R : Type} (s : StoreState R)
    (id2 name t id : String) :
    (s.trigger id2 name t).lookup id
      = if id = id2 then some (freshEntry R id2 name t) else s.lookup id := by
  show lookupEntry ((id2, freshEntry R id2 name t) :: s.entries) id = _
  rw [lookupEntry]
  rfl

theorem finishOk_lookup {R : Type} (s : StoreState R) (id2 : String) (res : R)
    (t id : String) :
    (s.finishOk id2 res t).lookup id
      = if id = id2 then
          (s.lookup id).map fun e =>
            { e with result := some res, status := VendorStatus.complete
                     completedAt := some t }
        else s.lookup id :=
  lookupEntry_updateEntry s.entries id2
    (fun e => { e with result := some res, status := VendorStatus.complete
                       completedAt := some t }) id

theorem finishErr_lookup {R : Type} (s : StoreState R) (id2 msg t id : String) :
    (s.finishErr id2 msg t).lookup id
      = if id = id2 then
          (s.lookup id).map fun e =>
            { e with status := VendorStatus.failed, error := some msg
                     completedAt := some t }
        else s.lookup id :=
  lookupEntry_updateEntry s.entries id2
    (fun e => { e with status := VendorStatus.failed, error := some msg
                       completedAt := some t }) id

theorem storeInv_step {R : Type} {s s' : StoreState R} (hinv : StoreInv s)
    (hstep : StoreStep R s s') : StoreInv s' := by
  obtain ⟨hnd, hpend, hterm⟩ := hinv
  cases hstep with
  | trigger id2 name t fresh =>
    refine ⟨?_, ?_, ?_⟩
    · refine List.Nodup.cons ?_ hnd
      intro hmem
      rcases hpend id2 hmem with ⟨e, he⟩
      rw [fresh] at he
      exact Option.noConfusion he
    · intro id hid
      rw [trigger_lookup]
      rcases List.mem_cons.mp hid with rfl | hid'
      · exact ⟨freshEntry R id name t, by rw [if_pos rfl]⟩
      · by_cases hne : id = id2
        · exact ⟨freshEntry R id2 name t, by rw [if_pos hne]⟩
        · rcases hpend id hid' with ⟨e, he⟩
          exact ⟨e, by rw [if_neg hne]; exact he⟩
    · intro id e he hterm'
      rw [trigger_lookup] at he
      by_cases hne : id = id2
      · rw [if_pos hne] at he
        have heq : freshEntry R id2 name t = e := Option.some.inj he
        rw [← heq] at hterm'
        simp [freshEntry, VendorStatus.isTerminal] at hterm'
      · rw [if_neg hne] at he
        intro hmem
        rcases List.mem_cons.mp hmem with h | h
        · exact hne h
        · exact hterm id e he hterm' h
  | finishOk id2 res t started =>
    refine ⟨hnd.erase id2, ?_, ?_⟩
    · intro id hid
      have hid' := (List.Nodup.mem_erase_iff hnd).mp hid
      rcases hpend id hid'.2 with ⟨e, he⟩
      rw [finishOk_lookup, if_neg hid'.1]
      exact ⟨e, he⟩
    · intro id e he hterm' hmem
      have hid' := (List.Nodup.mem_erase_iff hnd).mp hmem
      rw [finishOk_lookup, if_neg hid'.1] at he
      exact hterm id e he hterm' hid'.2
  | finishErr id2 msg t started =>
    refine ⟨hnd.erase id2, ?_, ?_⟩
    · intro id hid
      have hid' := (List.Nodup.mem_erase_iff hnd).mp hid
      rcases hpend id hid'.2 with ⟨e, he⟩
      rw [finishErr_lookup, if_neg hid'.1]
      exact ⟨e, he⟩
    · intro id e he hterm' hmem
      have hid' := (List.Nodup.mem_erase_iff hnd).mp hmem
      rw [finishErr_lookup, if_neg hid'.1] at he
      exact hterm id e he hterm' hid'.2

theorem storeInv_reachable {R : Type} {s : StoreState R}
    (h : ReachableStore R s) : StoreInv s := by
  induction h with
  | refl => exact storeInv_initial R
  | tail _ hstep ih => exact storeInv_step ih hstep

theorem terminal_preserved_step {R : Type} {s s' : StoreState R}
    (hinv : StoreInv s) (hstep : StoreStep R s s') (id : String)
    (e : VendorEntry R) (hlook : s.lookup id = some e)
    (hterm : e.status.isTerminal = true) : s'.lookup id = some e := by
  obtain ⟨hnd, hpend, htermInv⟩ := hinv
  cases hstep with
  | trigger id2 name t fresh =>
    rw [trigger_lookup]
    by_cases hne : id = id2
    · rw [hne] at hlook
      rw [fresh] at hlook
      exact Option.noConfusion hlook
    · rw [if_neg hne]
      exact hlook
  | finishOk id2 res t started =>
    have hne : id ≠ id2 := by
      intro h
      subst h
      exact htermInv id e hlook hterm started
    rw [finishOk_lookup, if_neg hne]
    exact hlook
  | finishErr id2 msg t started =>
    have hne : id ≠ id2 := by
      intro h
      subst h
      exact htermInv id e hlook hterm started
    rw [finishErr_lookup, if_neg hne]
    exact hlook

/-- C4: once a vendor entry is terminal (`complete` or `failed`), no further
store operation — trigger of another analysis, completion or failure of any
pipeline — ever changes that entry: every later lookup returns the very same
entry (status, result and error included)
(`triggerAnalysis` / `runPipeline` in `vendor-store.ts`). -/
theorem vendorStore_terminal_final {R : Type} (s s' : StoreState R)
    (hreach : ReachableStore R s)
    (hsteps : Relation.ReflTransGen (StoreStep R) s s') (id : String)
    (e : VendorEntry R) (hlook : s.lookup id = some e)
    (hterm : e.status.isTerminal = true) : s'.lookup id = some e := by
  induction hsteps with
  | refl => exact hlook
  | tail hab hbc ih =>
    exact terminal_preserved_step
      (storeInv_reachable (Relation.ReflTransGen.trans hreach hab))
      hbc id e ih hterm

/-- Witness for C4 on a concrete run: trigger `vnd_a`, complete it, then
trigger an unrelated `vnd_b`; the completed entry for `vnd_a` is unchanged. -/
theorem vendorStore_terminal_final_witness :
    storeS2.lookup "vnd_a" = some entryDone
    ∧ entryDone.status.isTerminal = true
    ∧ storeS3.lookup "vnd_a" = some entryDone := by
  have hstep1 : StoreStep Unit storeS0 storeS1 :=
    StoreStep.trigger storeS0 "vnd_a" "Acme" "t0" rfl
  have hstep2 : StoreStep Unit storeS1 storeS2 :=
    StoreStep.finishOk storeS1 "vnd_a" () "t1" (List.mem_cons_self _ _)
  have hstep3 : StoreStep Unit storeS2 storeS3 :=
    StoreStep.trigger storeS2 "vnd_b" "Beta" "t2" rfl
  have hreach : ReachableStore Unit storeS2 :=
    Relation.ReflTransGen.tail
      (Relation.ReflTransGen.tail Relation.ReflTransGen.refl hstep1) hstep2
  have hlook : storeS2.lookup "vnd_a" = some entryDone := rfl
  exact ⟨hlook, rfl,
    vendorStore_terminal_final storeS2 storeS3 hreach
      (Relation.ReflTransGen.single hstep3) "vnd_a" entryDone hlook rfl⟩

-- ---------------------------------------------------------------------------
-- C8: non-finite fields are dropped, never zeroed
-- ---------------------------------------------------------------------------

theorem mkVariable_none_iff (n : String) (x : Option JSNum)
    (c : VariableCategory) (i : String) :
    mkVariable n x c i = none ↔ ∀ q : ℚ, x ≠ some (.fin q) := by
  cases x with
  | none => simp [mkVariable]
  | some j => cases j <;> simp [mkVariable]

theorem mkVariable_some (n : String) (x : Option JSNum)
    (c : VariableCategory) (i : String) (w : PartitionedVariable)
    (h : mkVariable n x c i = some w) :
    x = some (.fin w.value) ∧ w.name = n ∧ w.category = c
    ∧ w.industry = i := by
  cases x with
  | none => exact absurd h (by simp [mkVariable])
  | some j =>
    cases j with
    | fin q =>
      have hw : ({ name := n, value := q, category := c, industry := i }
          : PartitionedVariable) = w := Option.some.inj h
      rw [← hw]
      exact ⟨rfl, rfl, rfl, rfl⟩
    | nan => exact absurd h (by simp [mkVariable])
    | inf => exact absurd h (by simp [mkVariable])
    | ninf => exact absurd h (by simp [mkVariable])

theorem mem_collect {v : PartitionedVariable}
    {l : List (Option PartitionedVariable)} :
    v ∈ collect l ↔ some v ∈ l := by
  simp [collect, List.mem_filterMap]

theorem foldl_mem_imp {α β : Type} (f : List β → α → List β) (P : β → Prop)
    (hstep : ∀ acc a v, v ∈ f acc a → v ∈ acc ∨ P v) :
    ∀ (l : List α) (acc : List β) (v : β), v ∈ l.foldl f acc → v ∈ acc ∨ P v := by
  intro l
  induction l with
  | nil =>
    intro acc v h
    exact Or.inl h
  | cons a rest ih =>
    intro acc v h
    rcases ih (f acc a) v h with h' | h'
    · exact hstep acc a v h'
    · exact Or.inr h'

theorem mem_macroVariables {data : AggregatedCompanyData}
    {cat : VariableCategory} {ind : String} {v : PartitionedVariable}
    (hv : v ∈ macroVariables data cat ind) :
    ∃ sid dn, MACRO_SERIES_CATEGORY sid = some (cat, dn) ∧ v.name = dn := by
  cases hd : data.macroIndicators.data with
  | none =>
    rw [macroVariables, hd] at hv
    exact absurd hv (List.not_mem_nil v)
  | some indicators =>
    rw [macroVariables, hd] at hv
    have hmain := foldl_mem_imp _
      (fun w : PartitionedVariable =>
        ∃ sid dn, MACRO_SERIES_CATEGORY sid = some (cat, dn) ∧ w.name = dn)
      ?hstep indicators [] v hv
    · rcases hmain with h | h
      · exact absurd h (List.not_mem_nil v)
      · exact h
    case hstep =>
      intro acc indicator w hw
      rcases hm : MACRO_SERIES_CATEGORY indicator.seriesId with _ | ⟨c', dn⟩
      · simp only [hm] at hw
        exact Or.inl hw
      · simp only [hm] at hw
        by_cases hc : c' ≠ cat
        · rw [if_pos hc] at hw
          exact Or.inl hw
        · rw [if_neg hc] at hw
          push_neg at hc
          cases hobs : indicator.observations.head? with
          | none =>
            simp only [hobs] at hw
            exact Or.inl hw
          | some latest =>
            simp only [hobs] at hw
            cases hval : latest.value with
            | none =>
              simp only [hval] at hw
              exact Or.inl hw
            | some x =>
              simp only [hval] at hw
              rcases List.mem_append.mp hw with h | h
              · exact Or.inl h
              · have hsing := mem_collect.mp h
                have h2 : mkVariable dn (some x) cat ind = some w :=
                  (List.mem_singleton.mp hsing).symm
                have h3 := mkVariable_some _ _ _ _ _ h2
                exact Or.inr ⟨indicator.seriesId, dn, hc ▸ hm, h3.2.1⟩

theorem macro_financial_names {sid dn : String}
    (h : MACRO_SERIES_CATEGORY sid = some (.financial, dn)) :
    dn = "crude_oil_wti_price" ∨ dn = "ppi_manufacturing"
    ∨ dn = "ppi_all_commodities" := by
  unfold MACRO_SERIES_CATEGORY at h
  split at h <;> simp_all

theorem extractFinancial_pe (jsLog jsSqrt : JSNum → JSNum)
    (data : AggregatedCompanyData) (ev : Option EvaluatedData) (ind : String) :
    ∀ v ∈ extractFinancialVariables jsLog jsSqrt data ev ind,
      v.name = "pe_ratio" →
      data.stockQuote.data.bind (·.pe) = some (.fin v.value) := by
  intro v hv hname
  simp only [extractFinancialVariables] at hv
  rcases List.mem_append.mp hv with hv | hv
  · have hbase : v ∈ collect
        [ mkVariable "stock_price" ((data.stockQuote.data).map (·.price))
            .financial ind,
          mkVariable "price_change_pct"
            ((data.stockQuote.data).map (·.changePercent)) .financial ind,
          mkVariable "trading_volume" ((data.stockQuote.data).map (·.volume))
            .financial ind,
          mkVariable "market_cap" ((data.stockQuote.data).map (·.marketCap))
            .financial ind,
          mkVariable "pe_ratio" ((data.stockQuote.data).bind (·.pe))
            .financial ind,
          mkVariable "altman_z_score"
            ((data.financialHealth.data).bind (·.altmanZScore)) .financial ind,
          mkVariable "piotroski_score"
            ((data.financialHealth.data).bind (·.piotroskiScore)) .financial ind,
          mkVariable "debt_to_equity"
            ((data.financialHealth.data).bind (·.debtToEquity)) .financial ind,
          mkVariable "current_ratio"
            ((data.financialHealth.data).bind (·.currentRatio)) .financial ind,
          mkVariable "quick_ratio"
            ((data.financialHealth.data).bind (·.quickRatio)) .financial ind,
          mkVariable "return_on_equity"
            ((data.financialHealth.data).bind (·.returnOnEquity)) .financial ind,
          mkVariable "return_on_assets"
            ((data.financialHealth.data).bind (·.returnOnAssets)) .financial ind,
          mkVariable "annualized_volatility"
            (computeHistoricalVolatility jsLog jsSqrt
              data.historicalPrices.data) .financial ind ]
        ∨ ∃ e, ev = some e ∧ v ∈ collect
          [ mkVariable "financial_risk_signal_count"
              (some (.fin ((e.riskSignals.filter fun s =>
                s.category = "financial").length : ℚ)))
              .financial ind,
            mkVariable "financial_risk_severity_score"
              (some (.fin (((e.riskSignals.filter fun s =>
                  s.category = "financial").foldl
                  (fun sum s => sum + SEVERITY_SCORE s.severity) 0 : ℕ) : ℚ)))
              .financial ind ] := by
      cases ev with
      | none => exact Or.inl hv
      | some e =>
        rcases List.mem_append.mp hv with h | h
        · exact Or.inl h
        · exact Or.inr ⟨e, rfl, h⟩
    rcases hbase with hbase | ⟨e, _, hbase⟩
    · have hmem := mem_collect.mp hbase
      simp only [List.mem_cons, List.not_mem_nil, or_false] at hmem
      rcases hmem with h|h|h|h|h|h|h|h|h|h|h|h|h <;>
        · obtain ⟨hx, hn, -, -⟩ := mkVariable_some _ _ _ _ _ h.symm
          rw [hn] at hname
          first
            | exact hx
            | exact absurd hname (by decide)
    · have hmem := mem_collect.mp hbase
      simp only [List.mem_cons, List.not_mem_nil, or_false] at hmem
      rcases hmem with h|h <;>
        · obtain ⟨hx, hn, -, -⟩ := mkVariable_some _ _ _ _ _ h.symm
          rw [hn] at hname
          exact absurd hname (by decide)
  · rcases mem_macroVariables hv with ⟨sid, dn, hm, hn⟩
    rw [hn] at hname
    rw [hname] at hm
    rcases macro_financial_names hm with h|h|h <;> exact absurd h (by decide)

/-- C8: the `variable(...)` builder omits every source field that is null,
undefined, or non-finite, and passes every finite field value through
verbatim (never substituting zero); consequently, end to end, the nullable
`pe` quote field yields a `pe_ratio` variable only when it holds a finite
value — when it is absent or non-finite, no `pe_ratio` variable appears in
the partition (`variable` / `partitionVariables` in `partitioner.ts`). -/
theorem partitionVariables_drops_nonfinite :
    (∀ (n : String) (x : Option JSNum) (c : VariableCategory) (i : String),
      (mkVariable n x c i = none ↔ ∀ q : ℚ, x ≠ some (.fin q))
      ∧ (∀ w, mkVariable n x c i = some w →
          x = some (.fin w.value) ∧ w.name = n ∧ w.category = c
          ∧ w.industry = i))
    ∧ (∀ (jsLog jsSqrt : JSNum → JSNum) (agg : AggregatedCompanyData)
        (ev : Option EvaluatedData),
        notFiniteOpt (agg.stockQuote.data.bind (·.pe)) = true →
        "pe_ratio" ∉ (partitionVariables jsLog jsSqrt agg ev).financial.map
          (·.name)) := by
  constructor
  · intro n x c i
    exact ⟨mkVariable_none_iff n x c i, fun w h => mkVariable_some n x c i w h⟩
  · intro jsLog jsSqrt agg ev hnf hmem
    rcases List.mem_map.mp hmem with ⟨v, hv, hname⟩
    have hv' : v ∈ extractFinancialVariables jsLog jsSqrt agg ev
        (resolveIndustry (agg.profile.data.map (·.sector))) := hv
    have hpe := extractFinancial_pe jsLog jsSqrt agg ev _ v hv' hname
    rw [hpe] at hnf
    simp [notFiniteOpt] at hnf

/-- Witness for C8: a quote whose `pe` parsed to NaN produces no `pe_ratio`
variable, and the builder maps a NaN field to `none`. -/
theorem partitionVariables_drops_nonfinite_witness :
    notFiniteOpt ((aggregateCompanyData cid0 oPeNan "t0").stockQuote.data.bind
      (·.pe)) = true
    ∧ mkVariable "pe_ratio" (some .nan) .financial "Technology" = none
    ∧ "pe_ratio" ∉ (partitionVariables (fun _ => .nan) (fun _ => .nan)
        (aggregateCompanyData cid0 oPeNan "t0") none).financial.map
        (·.name) := by
  refine ⟨rfl, ?_, ?_⟩
  · exact (partitionVariables_drops_nonfinite.1 "pe_ratio" (some .nan)
      .financial "Technology").1.mpr
      (fun q h => JSNum.noConfusion (Option.some.inj h))
  · exact partitionVariables_drops_nonfinite.2 (fun _ => .nan) (fun _ => .nan)
      (aggregateCompanyData cid0 oPeNan "t0") none rfl

end VendorRisk
